import Mathlib

/-!
Verification of lambda-cron-go-service: producer and worker.

A shallow embedding of the two Lambda entry points of `lambda-cron-go-service`:

* `src/worker/main.go`: the SQS batch worker (`Worker.Handler`, `processWorkItem` and the
  five payload handlers, `createWorkerErrorResponse`);
* `src/main.go`: the cron producer (`Producer.Handler`, `createErrorResponse`).

Conventions of the embedding.

* Effects are recorded in a trace of `Event`s, in program order: `log.Printf`/`log.Println`
  calls (by their format string), `time.Sleep` calls, points handed to `writeAPI.WritePoint`,
  and the `Flush`/`Close` calls of the deferred cleanup.
* Wall-clock readings (`time.Now()`, `time.Since`) are not modelled: the `timestamp` fields of
  the responses are left out and a duration written to a metric field is `FieldVal.duration`.
* External collaborators (AWS session, Secrets Manager, `encoding/json`, the SQS client, the
  process environment) are inputs of the model.
* `math/rand` is a stream of raw draws; `rand.Intn n` takes the next draw modulo `n`.
-/

namespace CronService

/-! ## Shared data model -/

/-- The dynamic values `encoding/json` stores in an `interface{}`: `nil`, `bool`, `float64`
(held here by its exact rational value), `string`, `[]interface{}` and
`map[string]interface{}`. -/
inductive JVal where
  | null
  | bool (b : Bool)
  | num (x : ℚ)
  | str (s : String)
  | arr (xs : List JVal)
  | obj (kvs : List (String × JVal))

/-- A `map[string]interface{}`, as an association list (the first binding of a key is the
map's entry). -/
abbrev Payload := List (String × JVal)

/-- The struct `WorkItem` (the same in both programs); `Typ` is its field `Type`. -/
structure WorkItem where
  ID : Int
  Typ : String
  Payload : Payload

/-- The struct `InfluxDBCredentials`. -/
structure InfluxDBCredentials where
  Token : String

/-- A value given to `AddField`. -/
inductive FieldVal where
  | int (n : Int)
  | str (s : String)
  | duration
  deriving DecidableEq, Repr

/-- A metric point: measurement, tags and fields in the order they are added. -/
structure Point where
  measurement : String
  tags : List (String × String)
  fields : List (String × FieldVal)
  deriving DecidableEq, Repr

/-- One observable effect. -/
inductive Event where
  | log (format : String)
  | sleep (ms : Nat)
  | writePoint (p : Point)
  | flush
  | close
  deriving DecidableEq, Repr

/-- The state of `math/rand`: the stream of raw draws still to come. -/
abbrev Rng := Nat → Nat

/-- The call `rand.Intn(n)`: a value below `n` and the advanced generator. -/
def Intn (n : Nat) (rng : Rng) : Nat × Rng :=
  (rng 0 % n, fun i => rng (i + 1))

/-- The conversion `int(f)` of a `float64`: truncation toward zero. -/
def intOfFloat (x : ℚ) : Int :=
  Int.tdiv x.num x.den

/-- The type assertion `payload[key].(string)`; `none` when `ok` is false. -/
def assertString (payload : Payload) (key : String) : Option String :=
  match payload.lookup key with
  | some (JVal.str s) => some s
  | _ => none

/-- The type assertion `payload[key].(float64)`; `none` when `ok` is false. -/
def assertFloat64 (payload : Payload) (key : String) : Option ℚ :=
  match payload.lookup key with
  | some (JVal.num x) => some x
  | _ => none

/-- Whether an event is a metric point. -/
def Event.isPoint : Event → Bool
  | Event.writePoint _ => true
  | _ => false

/-- Whether an event is a `time.Sleep` (the simulated work). -/
def Event.isSleep : Event → Bool
  | Event.sleep _ => true
  | _ => false

namespace Worker

/-! ## Worker: payload handlers (`src/worker/main.go`, lines 267-436) -/

/-- What a call that returns `error` did: the error (`none` for `nil`), the effects, and the
random generator afterwards. -/
structure Run where
  err : Option String
  events : List Event
  rng : Rng

/-- The function `processDataItem`. `writeAPI` tells whether the sink is non-nil. -/
def processDataItem (payload : Payload) (writeAPI : Bool) (rng : Rng) : Run :=
  let ev0 := [Event.log "Processing data item: %+v"]
  match assertString payload "action" with
  | none => ⟨some "missing or invalid action in payload", ev0, rng⟩
  | some action =>
    if action = "update_profile" then
      let ev1 := ev0 ++ [Event.sleep 100]
      match assertFloat64 payload "userId" with
      | none => ⟨some "missing or invalid userId in payload", ev1, rng⟩
      | some userIdFloat =>
        let userId := intOfFloat userIdFloat
        let ev2 := ev1 ++ [Event.log "Updated profile for user %d"]
        let ev3 :=
          if writeAPI then
            ev2 ++ [Event.writePoint
              { measurement := "user_activity"
                tags := [("action", action)]
                fields := [("user_id", FieldVal.int userId),
                           ("processing_time_ms", FieldVal.int 100)] }]
          else ev2
        ⟨none, ev3, rng⟩
    else ⟨none, ev0, rng⟩

/-- The function `processEmailNotification`. -/
def processEmailNotification (payload : Payload) (writeAPI : Bool) (rng : Rng) : Run :=
  let ev0 := [Event.log "Processing email notification: %+v"]
  match assertString payload "email" with
  | none => ⟨some "missing or invalid email in payload", ev0, rng⟩
  | some email =>
    match assertString payload "template" with
    | none => ⟨some "missing or invalid template in payload", ev0, rng⟩
    | some template =>
      let ev1 := ev0 ++ [Event.sleep 200,
        Event.log "Email notification sent to %s using template %s"]
      let ev2 :=
        if writeAPI then
          ev1 ++ [Event.writePoint
            { measurement := "email_notifications"
              tags := [("template", template), ("status", "sent")]
              fields := [("recipient", FieldVal.str email),
                         ("delivery_time_ms", FieldVal.int 200)] }]
        else ev1
      ⟨none, ev2, rng⟩

/-- The function `processDataCleanup`. -/
def processDataCleanup (payload : Payload) (writeAPI : Bool) (rng : Rng) : Run :=
  let ev0 := [Event.log "Processing data cleanup: %+v"]
  match assertString payload "table" with
  | none => ⟨some "missing or invalid table in payload", ev0, rng⟩
  | some table =>
    match assertFloat64 payload "days" with
    | none => ⟨some "missing or invalid days in payload", ev0, rng⟩
    | some daysFloat =>
      let days := intOfFloat daysFloat
      if table = "old_logs" then
        let drawn := Intn 100 rng
        let recordsDeleted := drawn.1
        let ev1 := ev0 ++ [Event.sleep 150,
          Event.log "Cleaned up %d records from %s older than %d days"]
        let ev2 :=
          if writeAPI then
            ev1 ++ [Event.writePoint
              { measurement := "data_cleanup"
                tags := [("table", table)]
                fields := [("records_deleted", FieldVal.int recordsDeleted),
                           ("retention_days", FieldVal.int days),
                           ("cleanup_time_ms", FieldVal.int 150)] }]
          else ev1
        ⟨none, ev2, drawn.2⟩
      else ⟨none, ev0, rng⟩

/-- The function `processReportGeneration`. -/
def processReportGeneration (payload : Payload) (writeAPI : Bool) (rng : Rng) : Run :=
  let ev0 := [Event.log "Processing report generation: %+v"]
  match assertString payload "reportType" with
  | none => ⟨some "missing or invalid reportType in payload", ev0, rng⟩
  | some reportType =>
    match assertFloat64 payload "userId" with
    | none => ⟨some "missing or invalid userId in payload", ev0, rng⟩
    | some userIdFloat =>
      let userId := intOfFloat userIdFloat
      let drawn := Intn 1000 rng
      let reportSize := drawn.1 + 100
      let ev1 := ev0 ++ [Event.sleep 300, Event.log "Generated %s report for user %d (%dKB)"]
      let ev2 :=
        if writeAPI then
          ev1 ++ [Event.writePoint
            { measurement := "report_generation"
              tags := [("report_type", reportType)]
              fields := [("user_id", FieldVal.int userId),
                         ("report_size_kb", FieldVal.int reportSize),
                         ("generation_time_ms", FieldVal.int 300)] }]
        else ev1
      ⟨none, ev2, drawn.2⟩

/-- The function `processBackupTask`. -/
def processBackupTask (payload : Payload) (writeAPI : Bool) (rng : Rng) : Run :=
  let ev0 := [Event.log "Processing backup task: %+v"]
  match assertString payload "database" with
  | none => ⟨some "missing or invalid database in payload", ev0, rng⟩
  | some database =>
    match assertFloat64 payload "retention" with
    | none => ⟨some "missing or invalid retention in payload", ev0, rng⟩
    | some retentionFloat =>
      let retention := intOfFloat retentionFloat
      let drawn := Intn 10000 rng
      let backupSize := drawn.1 + 1000
      let ev1 := ev0 ++ [Event.sleep 500,
        Event.log "Backup completed for %s database with %d day retention (%dMB)"]
      let ev2 :=
        if writeAPI then
          ev1 ++ [Event.writePoint
            { measurement := "database_backup"
              tags := [("database", database)]
              fields := [("backup_size_mb", FieldVal.int backupSize),
                         ("retention_days", FieldVal.int retention),
                         ("backup_time_ms", FieldVal.int 500)] }]
        else ev1
      ⟨none, ev2, drawn.2⟩

/-! ## Worker: dispatch (`processWorkItem`, lines 224-265) -/

/-- The `switch workItem.Typ` of `processWorkItem`: the handler run of the matching case,
`none` for the `default` case. -/
def dispatch (workItem : WorkItem) (writeAPI : Bool) (rng : Rng) : Option Run :=
  if workItem.Typ = "data_processing" then
    some (processDataItem workItem.Payload writeAPI rng)
  else if workItem.Typ = "email_notification" then
    some (processEmailNotification workItem.Payload writeAPI rng)
  else if workItem.Typ = "data_cleanup" then
    some (processDataCleanup workItem.Payload writeAPI rng)
  else if workItem.Typ = "report_generation" then
    some (processReportGeneration workItem.Payload writeAPI rng)
  else if workItem.Typ = "backup_task" then
    some (processBackupTask workItem.Payload writeAPI rng)
  else none

/-- The function `processWorkItem`. -/
def processWorkItem (workItem : WorkItem) (writeAPI : Bool) (rng : Rng) : Run :=
  match dispatch workItem writeAPI rng with
  | none => ⟨some ("unknown work item type: " ++ workItem.Typ), [], rng⟩
  | some r =>
    match r.err with
    | some e => ⟨some e, r.events, r.rng⟩
    | none =>
      let ev1 :=
        if writeAPI then
          r.events ++ [Event.writePoint
            { measurement := "work_item_completed"
              tags := [("work_type", workItem.Typ)]
              fields := [("work_id", FieldVal.int workItem.ID),
                         ("processing_duration_ms", FieldVal.duration)] }]
        else r.events
      ⟨none, ev1 ++ [Event.log "Completed processing for work item %d of type %s"], r.rng⟩

/-! ## Worker: the batch handler (`Handler`, lines 54-222) -/

/-- The fields of `events.SQSMessage` that the worker reads. -/
structure SQSMessage where
  MessageId : String
  Body : String
  deriving DecidableEq, Repr

/-- The field `WorkId interface{}` of `ProcessedMessage` holds either the string `"unknown"`
or the item's `int` id. -/
inductive WorkIdVal where
  | str (s : String)
  | int (n : Int)
  deriving DecidableEq, Repr

/-- The struct `ProcessedMessage`; `Typ` is its field `Type`, `Error` is `none` for a nil
pointer. -/
structure ProcessedMessage where
  WorkId : WorkIdVal
  MessageId : String
  Typ : String
  Status : String
  Error : Option String
  deriving DecidableEq, Repr

/-- The struct `ProcessingSummary`. -/
structure ProcessingSummary where
  TotalMessages : Int
  SuccessfulMessages : Int
  FailedMessages : Int
  ProcessedItems : List ProcessedMessage
  FailedItems : List ProcessedMessage
  deriving DecidableEq, Repr

/-- The struct `WorkerResponse` (without its wall-clock `Timestamp`). -/
structure WorkerResponse where
  StatusCode : Int
  Environment : String
  Processing : ProcessingSummary
  deriving DecidableEq, Repr

/-- The collaborators of one worker invocation.
* `newSession`: the error of `session.NewSession()`, `none` for nil;
* `getSecretValue`: the error of `secretsMgr.GetSecretValue`, or the `SecretString` pointer of
  its result (`none` for a nil pointer);
* `unmarshalCredentials`: `json.Unmarshal` into `InfluxDBCredentials`;
* `unmarshalWorkItem`: `json.Unmarshal` of a record body into a `WorkItem`: the struct as it
  stands after the call (fields decoded before an error stay set) and the error, `none` for nil;
* `ENVIRONMENT`: the value of `os.Getenv("ENVIRONMENT")`. -/
structure Services where
  newSession : Option String
  getSecretValue : Except String (Option String)
  unmarshalCredentials : String → Except String InfluxDBCredentials
  unmarshalWorkItem : String → WorkItem × Option String
  ENVIRONMENT : String

/-- The function `createWorkerErrorResponse`. -/
def createWorkerErrorResponse (sv : Services) (errorMessage : String) (totalMessages : Int) :
    WorkerResponse :=
  let environment := if sv.ENVIRONMENT = "" then "unknown" else sv.ENVIRONMENT
  { StatusCode := 500
    Environment := environment
    Processing :=
      { TotalMessages := totalMessages
        SuccessfulMessages := 0
        FailedMessages := totalMessages
        ProcessedItems := []
        FailedItems := [] } }

/-- The variables the record loop of `Handler` carries from one iteration to the next. -/
structure LoopState where
  processedMessages : List ProcessedMessage
  failedMessages : List ProcessedMessage
  events : List Event
  rng : Rng

/-- The locals of one loop iteration after its decode/dispatch branches (lines 122-170). -/
structure Attempt where
  workItem : WorkItem
  status : String
  errorMessage : Option String
  state : LoopState

/-- Lines 122-170 of `Handler`: decode one record and dispatch it. -/
def attempt (sv : Services) (writeAPI : Bool) (st : LoopState) (record : SQSMessage) :
    Attempt :=
  let ev0 := st.events ++ [Event.log "Processing SQS record: %s"]
  let decoded := sv.unmarshalWorkItem record.Body
  let workItem := decoded.1
  match decoded.2 with
  | some err =>
    let errMsg := "Failed to parse work item: " ++ err
    { workItem := workItem
      status := "error"
      errorMessage := some errMsg
      state :=
        { processedMessages := st.processedMessages
          failedMessages := st.failedMessages ++
            [{ WorkId := WorkIdVal.str "unknown"
               MessageId := record.MessageId
               Typ := "unknown"
               Status := "error"
               Error := some errMsg }]
          events := ev0 ++ [Event.log "Failed to parse work item from message %s: %v"]
          rng := st.rng } }
  | none =>
    let ev1 := ev0 ++ [Event.log "Processing work item %d of type %s"]
    let r := processWorkItem workItem writeAPI st.rng
    match r.err with
    | some errMsg =>
      { workItem := workItem
        status := "error"
        errorMessage := some errMsg
        state :=
          { processedMessages := st.processedMessages
            failedMessages := st.failedMessages ++
              [{ WorkId := WorkIdVal.int workItem.ID
                 MessageId := record.MessageId
                 Typ := workItem.Typ
                 Status := "error"
                 Error := some errMsg }]
            events := ev1 ++ r.events ++ [Event.log "Failed to process work item %d: %v"]
            rng := r.rng } }
    | none =>
      { workItem := workItem
        status := "success"
        errorMessage := none
        state :=
          { processedMessages := st.processedMessages ++
              [{ WorkId := WorkIdVal.int workItem.ID
                 MessageId := record.MessageId
                 Typ := workItem.Typ
                 Status := "success"
                 Error := none }]
            failedMessages := st.failedMessages
            events := ev1 ++ r.events ++ [Event.log "Successfully processed work item %d"]
            rng := r.rng } }

/-- The point `work_item_processing` of lines 177-198. -/
def processingPoint (a : Attempt) (record : SQSMessage) : Point :=
  let known : Bool := a.status != "error" || a.workItem.Typ != ""
  let workType := if known then a.workItem.Typ else "unknown"
  let workId : Int := if known then a.workItem.ID else 0
  { measurement := "work_item_processing"
    tags := [("work_type", workType), ("status", a.status), ("message_id", record.MessageId)]
    fields := [("work_id", FieldVal.int workId), ("duration_ms", FieldVal.duration)] ++
      (match a.errorMessage with
       | some e => [("error_message", FieldVal.str e)]
       | none => []) }

/-- One iteration of the record loop of `Handler` (lines 121-199). -/
def processRecord (sv : Services) (writeAPI : Bool) (st : LoopState) (record : SQSMessage) :
    LoopState :=
  let a := attempt sv writeAPI st record
  let ev := a.state.events ++
    [Event.log "Work item processing completed for message %s: status=%s, duration=%dms"]
  { a.state with
    events := if writeAPI then ev ++ [Event.writePoint (processingPoint a record)] else ev }

/-- The record loop of `Handler` (lines 121-199), started where `Handler` starts it: nothing
recorded yet, the sink connected. -/
def batchLoop (sv : Services) (records : List SQSMessage) (rng : Rng) : LoopState :=
  records.foldl (processRecord sv true)
    { processedMessages := []
      failedMessages := []
      events := [Event.log "Worker Lambda triggered at: %s", Event.log "Event: %+v",
        Event.log "Connected to InfluxDB"]
      rng := rng }

/-- What an invocation that returns hands back: the response, the returned `error` (`none` for
nil), and the effects. -/
structure Invocation where
  response : WorkerResponse
  err : Option String
  events : List Event
  rng : Rng

/-- The function `Handler` of the worker. The result is `none` when the invocation panics
instead of returning: line 97 dereferences `secretResult.SecretString`, which is nil for a
secret without a string value. -/
def Handler (sv : Services) (records : List SQSMessage) (rng : Rng) : Option Invocation :=
  let ev0 := [Event.log "Worker Lambda triggered at: %s", Event.log "Event: %+v"]
  match sv.newSession with
  | some err =>
    some { response := createWorkerErrorResponse sv ("Failed to create AWS session: " ++ err)
             records.length
           err := some err
           events := ev0 ++ [Event.log "Failed to create AWS session: %v"]
           rng := rng }
  | none =>
    match sv.getSecretValue with
    | Except.error err =>
      let errMsg := "Failed to retrieve secret: " ++ err
      some { response := createWorkerErrorResponse sv errMsg records.length
             err := some err
             events := ev0 ++ [Event.log errMsg]
             rng := rng }
    | Except.ok none => none
    | Except.ok (some secretString) =>
      match sv.unmarshalCredentials secretString with
      | Except.error err =>
        let errMsg := "Failed to parse credentials: " ++ err
        some { response := createWorkerErrorResponse sv errMsg records.length
               err := some err
               events := ev0 ++ [Event.log errMsg]
               rng := rng }
      | Except.ok _ =>
        let st := batchLoop sv records rng
        let statusCode : Int := if st.failedMessages.length > 0 then 207 else 200
        some { response :=
                 { StatusCode := statusCode
                   Environment := sv.ENVIRONMENT
                   Processing :=
                     { TotalMessages := records.length
                       SuccessfulMessages := st.processedMessages.length
                       FailedMessages := st.failedMessages.length
                       ProcessedItems := st.processedMessages
                       FailedItems := st.failedMessages } }
               err := none
               events := st.events ++ [Event.log "Worker processing completed: %+v",
                 Event.flush, Event.close, Event.log "InfluxDB connection closed"]
               rng := st.rng }

/-- The outcome of the pre-flight steps of `Handler` (lines 64-101): the formatted message
given to `createWorkerErrorResponse` with the error returned, a nil `SecretString`, or
success. -/
inductive PreFlight where
  | failed (errMsg : String) (err : String)
  | nilSecret
  | passed
  deriving DecidableEq, Repr

/-- Which pre-flight outcome the collaborators produce (lines 64-101). -/
def preflight (sv : Services) : PreFlight :=
  match sv.newSession with
  | some err => PreFlight.failed ("Failed to create AWS session: " ++ err) err
  | none =>
    match sv.getSecretValue with
    | Except.error err => PreFlight.failed ("Failed to retrieve secret: " ++ err) err
    | Except.ok none => PreFlight.nilSecret
    | Except.ok (some secretString) =>
      match sv.unmarshalCredentials secretString with
      | Except.error err => PreFlight.failed ("Failed to parse credentials: " ++ err) err
      | Except.ok _ => PreFlight.passed

/-! ### Reference runs used to state and prove the worker's properties -/

/-- The error `processWorkItem` returns for an item, read off the run without sink on the
all-zero random stream. -/
def dispatchError (workItem : WorkItem) : Option String :=
  (processWorkItem workItem false (fun _ => 0)).err

/-- The loop state before the first record of an otherwise empty run. -/
def emptyState : LoopState :=
  { processedMessages := [], failedMessages := [], events := [], rng := fun _ => 0 }

/-- The entries one record adds to `processedMessages` when it is processed alone. -/
def successesOf (sv : Services) (record : SQSMessage) : List ProcessedMessage :=
  (processRecord sv true emptyState record).processedMessages

/-- The entries one record adds to `failedMessages` when it is processed alone. -/
def failuresOf (sv : Services) (record : SQSMessage) : List ProcessedMessage :=
  (processRecord sv true emptyState record).failedMessages

/-- The five `case` labels of `processWorkItem` with the handler each one calls. -/
def builtinHandlers : List (String × (Payload → Bool → Rng → Run)) :=
  [ ("data_processing", processDataItem),
    ("email_notification", processEmailNotification),
    ("data_cleanup", processDataCleanup),
    ("report_generation", processReportGeneration),
    ("backup_task", processBackupTask) ]

/-- What `processWorkItem` does after a handler returned nil (lines 252-264). -/
def completionEvents (workItem : WorkItem) (writeAPI : Bool) : List Event :=
  (if writeAPI then
    [Event.writePoint
      { measurement := "work_item_completed"
        tags := [("work_type", workItem.Typ)]
        fields := [("work_id", FieldVal.int workItem.ID),
                   ("processing_duration_ms", FieldVal.duration)] }]
   else []) ++ [Event.log "Completed processing for work item %d of type %s"]

/-- The type a payload field is required to have. -/
inductive FieldKind where
  | string
  | numeric
  deriving DecidableEq, Repr

/-- Whether a payload has the field `key` with a value of the given kind. -/
def present (payload : Payload) (key : String) : FieldKind → Bool
  | FieldKind.string =>
    match payload.lookup key with
    | some (JVal.str _) => true
    | _ => false
  | FieldKind.numeric =>
    match payload.lookup key with
    | some (JVal.num _) => true
    | _ => false

/-- A handler with its two required fields, in the order it checks them. -/
structure Requirement where
  handler : Payload → Bool → Rng → Run
  first : String
  firstKind : FieldKind
  second : String
  secondKind : FieldKind

/-- The required fields of the four handlers that check both fields before working. -/
def requirements : List Requirement :=
  [ ⟨processEmailNotification, "email", FieldKind.string, "template", FieldKind.string⟩,
    ⟨processDataCleanup, "table", FieldKind.string, "days", FieldKind.numeric⟩,
    ⟨processReportGeneration, "reportType", FieldKind.string, "userId", FieldKind.numeric⟩,
    ⟨processBackupTask, "database", FieldKind.string, "retention", FieldKind.numeric⟩ ]

/-- What the claims about the two-field handlers say of one handler run. -/
def Validates (q : Requirement) (payload : Payload) (b : Bool) (rng : Rng) : Prop :=
  ((q.handler payload b rng).err = none ↔
    (present payload q.first q.firstKind = true ∧
      present payload q.second q.secondKind = true)) ∧
  (present payload q.first q.firstKind = false →
    (q.handler payload b rng).err =
      some ("missing or invalid " ++ q.first ++ " in payload")) ∧
  (present payload q.first q.firstKind = true →
    present payload q.second q.secondKind = false →
    (q.handler payload b rng).err =
      some ("missing or invalid " ++ q.second ++ " in payload")) ∧
  ((q.handler payload b rng).err ≠ none →
    ∀ ev ∈ (q.handler payload b rng).events, ev.isPoint = false) ∧
  (∀ (b' : Bool) (rng' : Rng),
    (q.handler payload b' rng').err = (q.handler payload b rng).err)

end Worker

namespace Producer

/-! ## Producer (`src/main.go`) -/

/-- The struct `MessageSent`; `Typ` is its field `Type`. -/
structure MessageSent where
  WorkId : Int
  MessageId : String
  Typ : String
  deriving DecidableEq, Repr

/-- The struct `ProcessedData` (without its wall-clock `ExecutionTimeMs` and `Timestamp`). -/
structure ProcessedData where
  MessagesSent : List MessageSent
  deriving DecidableEq, Repr

/-- The struct `CronJobData`; `Error` and `ProcessedData` are `none` for nil. -/
structure CronJobData where
  Success : Bool
  Error : Option String
  ProcessedData : Option ProcessedData
  deriving DecidableEq, Repr

/-- The struct `CronResponse` (without its wall-clock `Timestamp`). -/
structure CronResponse where
  StatusCode : Int
  Environment : String
  CronJob : CronJobData
  deriving DecidableEq, Repr

/-- The `sqs.SendMessageInput` built at lines 164-177; `workType` and `workId` are the
`StringValue`s of the two message attributes. -/
structure SendMessageInput where
  QueueUrl : String
  MessageBody : String
  workType : String
  workId : String
  deriving DecidableEq, Repr

/-- The collaborators of one producer invocation.
* `loadDefaultConfig`: the error of `config.LoadDefaultConfig`, `none` for nil;
* `getSecretValue`, `unmarshalCredentials`: as for the worker;
* `marshal`: `json.Marshal` of a work item;
* `sendMessage`: `sqsClient.SendMessage`, which may answer by what the client was asked to send
  earlier in the invocation (first argument, oldest first); on success the `MessageId` of its
  output, which SQS sets on every successful send;
* `ENVIRONMENT`, `SQS_QUEUE_URL`: the values of `os.Getenv`. -/
structure Services where
  loadDefaultConfig : Option String
  getSecretValue : Except String (Option String)
  unmarshalCredentials : String → Except String InfluxDBCredentials
  marshal : WorkItem → Except String String
  sendMessage : List SendMessageInput → SendMessageInput → Except String String
  ENVIRONMENT : String
  SQS_QUEUE_URL : String

/-- The function `createErrorResponse`. -/
def createErrorResponse (sv : Services) (errorMessage : String) : CronResponse :=
  let environment := if sv.ENVIRONMENT = "" then "unknown" else sv.ENVIRONMENT
  { StatusCode := 500
    Environment := environment
    CronJob :=
      { Success := false
        Error := some errorMessage
        ProcessedData := none } }

/-- The slice `workItems` of lines 139-145. The Go `int` literals of the payloads are written
as the numbers they marshal to. -/
def workItems : List WorkItem :=
  [ { ID := 1, Typ := "data_processing",
      Payload := [("userId", JVal.num 123), ("action", JVal.str "update_profile")] },
    { ID := 2, Typ := "email_notification",
      Payload := [("email", JVal.str "user@example.com"), ("template", JVal.str "welcome")] },
    { ID := 3, Typ := "data_cleanup",
      Payload := [("table", JVal.str "old_logs"), ("days", JVal.num 30)] },
    { ID := 4, Typ := "report_generation",
      Payload := [("reportType", JVal.str "monthly"), ("userId", JVal.num 456)] },
    { ID := 5, Typ := "backup_task",
      Payload := [("database", JVal.str "main"), ("retention", JVal.num 7)] } ]

/-- The variables the publish loop carries: the outcomes recorded, the `SendMessage` calls made
so far (oldest first) and the effects. -/
structure LoopState where
  messagesSent : List MessageSent
  attempts : List SendMessageInput
  events : List Event

/-- How the publish loop ended: it ran to the end, or returned early with the message given to
`createErrorResponse` and the error returned. -/
inductive LoopExit where
  | completed
  | aborted (errMsg : String) (err : String)
  deriving DecidableEq, Repr

/-- The `SendMessageInput` that lines 164-177 build for an item. -/
def messageParams (queueURL : String) (item : WorkItem) (messageBody : String) :
    SendMessageInput :=
  { QueueUrl := queueURL
    MessageBody := messageBody
    workType := item.Typ
    workId := toString item.ID }

/-- The publish loop of `Handler` (lines 156-203) over the items still to send. -/
def publishLoop (sv : Services) (queueURL : String) :
    List WorkItem → LoopState → LoopState × LoopExit
  | [], st => (st, LoopExit.completed)
  | item :: rest, st =>
    match sv.marshal item with
    | Except.error err =>
      let errMsg := "Failed to marshal work item " ++ toString item.ID ++ ": " ++ err
      ({ st with events := st.events ++ [Event.log errMsg] }, LoopExit.aborted errMsg err)
    | Except.ok messageBody =>
      let params := messageParams queueURL item messageBody
      match sv.sendMessage st.attempts params with
      | Except.error err =>
        let errMsg := "Failed to send work item " ++ toString item.ID ++ " to SQS: " ++ err
        ({ st with
           attempts := st.attempts ++ [params]
           events := st.events ++ [Event.log errMsg] }, LoopExit.aborted errMsg err)
      | Except.ok messageId =>
        publishLoop sv queueURL rest
          { messagesSent := st.messagesSent ++
              [{ WorkId := item.ID, MessageId := messageId, Typ := item.Typ }]
            attempts := st.attempts ++ [params]
            events := st.events ++
              [Event.log "Sent work item %d (%s) to SQS: %s",
               Event.writePoint
                 { measurement := "sqs_messages"
                   tags := [("work_type", item.Typ), ("status", "sent")]
                   fields := [("work_id", FieldVal.int item.ID),
                              ("message_id", FieldVal.str messageId)] }] }

/-- What a producer invocation that returns hands back: the response, the returned `error`
(`none` for nil), the `SendMessage` calls it made and its effects. -/
structure Invocation where
  response : CronResponse
  err : Option String
  attempts : List SendMessageInput
  events : List Event

/-- The effects of the deferred cleanup once `writeAPI` is set (lines 77-85). -/
def deferred : List Event :=
  [Event.flush, Event.close, Event.log "InfluxDB connection closed"]

/-- The effects of `Handler` between the credential parsing and the publish loop (lines
113-136). -/
def preLoopEvents : List Event :=
  [Event.log "Cron job triggered at: %s", Event.log "Event: %+v",
   Event.log "InfluxDB client initialized with URL: %s",
   Event.log "Using InfluxDB organization: %s",
   Event.log "Using InfluxDB bucket: %s",
   Event.log "Connected to InfluxDB",
   Event.writePoint
     { measurement := "cron_job_execution"
       tags := [("status", "started"), ("function_name", "lambda-cron-go")]
       fields := [("execution_start", FieldVal.int 1)] }]

/-- The loop variables when the publish loop starts (line 155). -/
def loopStart : LoopState :=
  { messagesSent := [], attempts := [], events := preLoopEvents }

/-- How `Handler` returns once the publish loop has ended: the early return of lines 158-162
or 180-184, or lines 205-239. -/
def conclude (sv : Services) : LoopState × LoopExit → Invocation
  | (st, LoopExit.aborted errMsg err) =>
    { response := createErrorResponse sv errMsg
      err := some err
      attempts := st.attempts
      events := st.events ++ deferred }
  | (st, LoopExit.completed) =>
    { response :=
        { StatusCode := 200
          Environment := sv.ENVIRONMENT
          CronJob :=
            { Success := true
              Error := none
              ProcessedData := some { MessagesSent := st.messagesSent } } }
      err := none
      attempts := st.attempts
      events := st.events ++
        [Event.writePoint
           { measurement := "cron_job_execution"
             tags := [("status", "completed"), ("function_name", "lambda-cron-go")]
             fields := [("messages_sent", FieldVal.int st.messagesSent.length),
                        ("execution_duration_ms", FieldVal.duration)] },
         Event.flush,
         Event.log "Cron job completed successfully: %+v",
         Event.log "Cron job result: %+v"] ++ deferred }

/-- The function `Handler` of the producer, with the slice of lines 139-145 as the argument
`items`. The result is `none` when the invocation panics instead of returning: line 102
dereferences `secretResult.SecretString`, which is nil for a secret without a string value. -/
def HandlerOn (sv : Services) (items : List WorkItem) : Option Invocation :=
  let ev0 := [Event.log "Cron job triggered at: %s", Event.log "Event: %+v"]
  match sv.loadDefaultConfig with
  | some err =>
    some { response := createErrorResponse sv ("Failed to load AWS config: " ++ err)
           err := some err
           attempts := []
           events := ev0 }
  | none =>
    match sv.getSecretValue with
    | Except.error err =>
      let errMsg := "Failed to retrieve secret: " ++ err
      some { response := createErrorResponse sv errMsg
             err := some err
             attempts := []
             events := ev0 ++ [Event.log errMsg] }
    | Except.ok none => none
    | Except.ok (some secretString) =>
      match sv.unmarshalCredentials secretString with
      | Except.error err =>
        let errMsg := "Failed to parse credentials: " ++ err
        some { response := createErrorResponse sv errMsg
               err := some err
               attempts := []
               events := ev0 ++ [Event.log errMsg] }
      | Except.ok _ =>
        let queueURL := sv.SQS_QUEUE_URL
        if queueURL = "" then
          let errMsg := "SQS_QUEUE_URL environment variable is not set"
          some { response := createErrorResponse sv errMsg
                 err := some errMsg
                 attempts := []
                 events := preLoopEvents ++ [Event.log errMsg] ++ deferred }
        else
          some (conclude sv (publishLoop sv queueURL items loopStart))

/-- The function `Handler` of the producer. -/
def Handler (sv : Services) : Option Invocation :=
  HandlerOn sv workItems

/-- Whether the pre-flight steps of the producer (lines 69-106 and 147-152) all succeed. -/
def preflightPassed (sv : Services) : Bool :=
  match sv.loadDefaultConfig, sv.getSecretValue with
  | none, Except.ok (some secretString) =>
    (match sv.unmarshalCredentials secretString with
     | Except.ok _ => sv.SQS_QUEUE_URL != ""
     | Except.error _ => false)
  | _, _ => false

end Producer

/-! ## Sample inputs -/

namespace Sample

/-- A record body holding a well-formed `email_notification` item. -/
def emailBody : String :=
  "\x7b\"id\":2,\"type\":\"email_notification\",\"payload\":\x7b\"email\":\"user@example.com\",\"template\":\"welcome\"\x7d\x7d"

/-- A record body holding an item of an unregistered type. -/
def unknownTypeBody : String :=
  "\x7b\"id\":9,\"type\":\"unknown_type\",\"payload\":\x7b\x7d\x7d"

/-- A record body that is not JSON. -/
def garbageBody : String := "not json"

/-- What `json.Unmarshal` into a `WorkItem` gives on the three sample bodies (any other body is
answered like the last one). -/
def unmarshalWorkItem (body : String) : WorkItem × Option String :=
  if body = emailBody then
    ({ ID := 2, Typ := "email_notification",
       Payload := [("email", JVal.str "user@example.com"), ("template", JVal.str "welcome")] },
     none)
  else if body = unknownTypeBody then
    ({ ID := 9, Typ := "unknown_type", Payload := [] }, none)
  else
    ({ ID := 0, Typ := "", Payload := [] },
     some "invalid character 'o' in literal null (expecting 'u')")

/-- Worker collaborators whose pre-flight steps all succeed. -/
def services : Worker.Services :=
  { newSession := none
    getSecretValue := Except.ok (some "\x7b\"token\":\"t0\"\x7d")
    unmarshalCredentials := fun _ => Except.ok { Token := "t0" }
    unmarshalWorkItem := unmarshalWorkItem
    ENVIRONMENT := "dev" }

/-- Worker collaborators whose secret retrieval fails. -/
def failingServices : Worker.Services :=
  { services with getSecretValue := Except.error "AccessDeniedException" }

/-- The batch of scenario B: a well-formed `email_notification`, an item of type
`unknown_type`, and an unparsable body. -/
def batch : List Worker.SQSMessage :=
  [ { MessageId := "m-1", Body := emailBody },
    { MessageId := "m-2", Body := unknownTypeBody },
    { MessageId := "m-3", Body := garbageBody } ]

/-- A random stream. -/
def rng : Rng := fun i => 7 * i + 3

/-- Producer collaborators whose pre-flight steps succeed and whose queue accepts two messages
and then refuses every further one. -/
def producerServices : Producer.Services :=
  { loadDefaultConfig := none
    getSecretValue := Except.ok (some "\x7b\"token\":\"t0\"\x7d")
    unmarshalCredentials := fun _ => Except.ok { Token := "t0" }
    marshal := fun item => Except.ok ("item-" ++ toString item.ID)
    sendMessage := fun earlier _ =>
      if earlier.length < 2 then Except.ok ("sqs-" ++ toString earlier.length)
      else Except.error "QueueDoesNotExist"
    ENVIRONMENT := "dev"
    SQS_QUEUE_URL := "https://sqs.example/queue" }

/-- Producer collaborators whose pre-flight steps succeed and whose queue accepts every message,
answering with an id numbered by the calls made before. -/
def acceptingServices : Producer.Services :=
  { producerServices with
    sendMessage := fun earlier _ => Except.ok ("sqs-" ++ toString earlier.length) }

end Sample

/-! ## Properties of the worker's handlers -/

namespace Worker

theorem processDataItem_err (payload : Payload) (b b' : Bool) (rng rng' : Rng) :
    (processDataItem payload b rng).err = (processDataItem payload b' rng').err := by
  unfold processDataItem
  simp only []
  split
  · rfl
  · split
    · split <;> rfl
    · rfl

theorem processEmailNotification_err (payload : Payload) (b b' : Bool) (rng rng' : Rng) :
    (processEmailNotification payload b rng).err =
      (processEmailNotification payload b' rng').err := by
  unfold processEmailNotification
  simp only []
  split
  · rfl
  · split <;> rfl

theorem processDataCleanup_err (payload : Payload) (b b' : Bool) (rng rng' : Rng) :
    (processDataCleanup payload b rng).err = (processDataCleanup payload b' rng').err := by
  unfold processDataCleanup
  simp only []
  split
  · rfl
  · split
    · rfl
    · split <;> rfl

theorem processReportGeneration_err (payload : Payload) (b b' : Bool) (rng rng' : Rng) :
    (processReportGeneration payload b rng).err =
      (processReportGeneration payload b' rng').err := by
  unfold processReportGeneration
  simp only []
  split
  · rfl
  · split <;> rfl

theorem processBackupTask_err (payload : Payload) (b b' : Bool) (rng rng' : Rng) :
    (processBackupTask payload b rng).err = (processBackupTask payload b' rng').err := by
  unfold processBackupTask
  simp only []
  split
  · rfl
  · split <;> rfl

/-- The errors of the handler a `switch` case runs depend neither on the sink nor on the
random stream. -/
theorem dispatch_err (w : WorkItem) (b b' : Bool) (rng rng' : Rng) :
    (dispatch w b rng).map Run.err = (dispatch w b' rng').map Run.err := by
  unfold dispatch
  split
  · simp only [Option.map_some', processDataItem_err w.Payload b b' rng rng']
  · split
    · simp only [Option.map_some', processEmailNotification_err w.Payload b b' rng rng']
    · split
      · simp only [Option.map_some', processDataCleanup_err w.Payload b b' rng rng']
      · split
        · simp only [Option.map_some', processReportGeneration_err w.Payload b b' rng rng']
        · split
          · simp only [Option.map_some', processBackupTask_err w.Payload b b' rng rng']
          · rfl

/-- The error of `processWorkItem` in terms of the `switch`. -/
theorem processWorkItem_err_eq (w : WorkItem) (b : Bool) (rng : Rng) :
    (processWorkItem w b rng).err =
      match (dispatch w b rng).map Run.err with
      | none => some ("unknown work item type: " ++ w.Typ)
      | some e => e := by
  unfold processWorkItem
  cases h : dispatch w b rng with
  | none => rfl
  | some r =>
    simp only [Option.map_some']
    cases hr : r.err <;> rfl

/-- The error `processWorkItem` returns depends neither on the sink nor on the random
stream. -/
theorem processWorkItem_err (w : WorkItem) (b : Bool) (rng : Rng) :
    (processWorkItem w b rng).err = dispatchError w := by
  unfold dispatchError
  rw [processWorkItem_err_eq, processWorkItem_err_eq, dispatch_err w b false rng (fun _ => 0)]

/-- The status, error and work item of an iteration do not depend on the loop state. -/
theorem attempt_processed (sv : Services) (b : Bool) (st : LoopState) (r : SQSMessage) :
    (attempt sv b st r).state.processedMessages =
      st.processedMessages ++ successesOf sv r := by
  unfold successesOf processRecord attempt
  simp only [processWorkItem_err, emptyState]
  cases sv.unmarshalWorkItem r.Body with
  | mk w e =>
    cases e with
    | some err => simp
    | none =>
      simp only []
      cases dispatchError w <;> simp

theorem attempt_failed (sv : Services) (b : Bool) (st : LoopState) (r : SQSMessage) :
    (attempt sv b st r).state.failedMessages = st.failedMessages ++ failuresOf sv r := by
  unfold failuresOf processRecord attempt
  simp only [processWorkItem_err, emptyState]
  cases sv.unmarshalWorkItem r.Body with
  | mk w e =>
    cases e with
    | some err => simp
    | none =>
      simp only []
      cases dispatchError w <;> simp

theorem processRecord_processed (sv : Services) (b : Bool) (st : LoopState) (r : SQSMessage) :
    (processRecord sv b st r).processedMessages =
      st.processedMessages ++ successesOf sv r := by
  rw [← attempt_processed sv b st r]
  rfl

theorem processRecord_failed (sv : Services) (b : Bool) (st : LoopState) (r : SQSMessage) :
    (processRecord sv b st r).failedMessages = st.failedMessages ++ failuresOf sv r := by
  rw [← attempt_failed sv b st r]
  rfl

/-- The record loop appends, record by record, what each record yields alone. -/
theorem foldl_processed (sv : Services) (b : Bool) (rs : List SQSMessage) (st : LoopState) :
    (rs.foldl (processRecord sv b) st).processedMessages =
      st.processedMessages ++ rs.flatMap (successesOf sv) := by
  induction rs generalizing st with
  | nil => simp
  | cons r rs ih =>
    rw [List.foldl_cons, ih, processRecord_processed, List.flatMap_cons, List.append_assoc]

theorem foldl_failed (sv : Services) (b : Bool) (rs : List SQSMessage) (st : LoopState) :
    (rs.foldl (processRecord sv b) st).failedMessages =
      st.failedMessages ++ rs.flatMap (failuresOf sv) := by
  induction rs generalizing st with
  | nil => simp
  | cons r rs ih =>
    rw [List.foldl_cons, ih, processRecord_failed, List.flatMap_cons, List.append_assoc]

theorem batchLoop_processed (sv : Services) (rs : List SQSMessage) (rng : Rng) :
    (batchLoop sv rs rng).processedMessages = rs.flatMap (successesOf sv) := by
  unfold batchLoop
  rw [foldl_processed]
  rfl

theorem batchLoop_failed (sv : Services) (rs : List SQSMessage) (rng : Rng) :
    (batchLoop sv rs rng).failedMessages = rs.flatMap (failuresOf sv) := by
  unfold batchLoop
  rw [foldl_failed]
  rfl

/-- What one record yields alone, by the three ways an iteration can go. -/
theorem record_outcome (sv : Services) (r : SQSMessage) :
    (∀ e, (sv.unmarshalWorkItem r.Body).2 = some e →
      successesOf sv r = [] ∧
      failuresOf sv r =
        [{ WorkId := WorkIdVal.str "unknown", MessageId := r.MessageId, Typ := "unknown",
           Status := "error", Error := some ("Failed to parse work item: " ++ e) }]) ∧
    ((sv.unmarshalWorkItem r.Body).2 = none →
      (∀ e, dispatchError (sv.unmarshalWorkItem r.Body).1 = some e →
        successesOf sv r = [] ∧
        failuresOf sv r =
          [{ WorkId := WorkIdVal.int (sv.unmarshalWorkItem r.Body).1.ID
             MessageId := r.MessageId
             Typ := (sv.unmarshalWorkItem r.Body).1.Typ
             Status := "error", Error := some e }]) ∧
      (dispatchError (sv.unmarshalWorkItem r.Body).1 = none →
        successesOf sv r =
          [{ WorkId := WorkIdVal.int (sv.unmarshalWorkItem r.Body).1.ID
             MessageId := r.MessageId
             Typ := (sv.unmarshalWorkItem r.Body).1.Typ
             Status := "success", Error := none }] ∧
        failuresOf sv r = [])) := by
  unfold successesOf failuresOf processRecord attempt
  simp only [processWorkItem_err, emptyState]
  cases sv.unmarshalWorkItem r.Body with
  | mk w d =>
    cases d with
    | some err =>
      refine ⟨?_, ?_⟩
      · intro e he
        cases he
        simp
      · intro h
        cases h
    | none =>
      refine ⟨?_, ?_⟩
      · intro e he
        cases he
      · intro _
        cases hd : dispatchError w with
        | none => simp
        | some e => simp

/-- Every record yields one outcome, carrying its message id, in one of the two lists. -/
theorem record_one_outcome (sv : Services) (r : SQSMessage) :
    (∃ m, successesOf sv r = [m] ∧ failuresOf sv r = [] ∧ m.MessageId = r.MessageId ∧
        m.Status = "success" ∧ m.Error = none) ∨
    (∃ m, successesOf sv r = [] ∧ failuresOf sv r = [m] ∧ m.MessageId = r.MessageId ∧
        m.Status = "error" ∧ m.Error.isSome = true) := by
  obtain ⟨h1, h2⟩ := record_outcome sv r
  cases hd : (sv.unmarshalWorkItem r.Body).2 with
  | some e =>
    obtain ⟨hs, hf⟩ := h1 e hd
    exact Or.inr ⟨_, hs, hf, rfl, rfl, rfl⟩
  | none =>
    obtain ⟨h3, h4⟩ := h2 hd
    cases hw : dispatchError (sv.unmarshalWorkItem r.Body).1 with
    | some e =>
      obtain ⟨hs, hf⟩ := h3 e hw
      exact Or.inr ⟨_, hs, hf, rfl, rfl, rfl⟩
    | none =>
      obtain ⟨hs, hf⟩ := h4 hw
      exact Or.inl ⟨_, hs, hf, rfl, rfl, rfl⟩

/-- The two lists together hold one outcome per record. -/
theorem flatMap_lengths (sv : Services) (rs : List SQSMessage) :
    (rs.flatMap (successesOf sv)).length + (rs.flatMap (failuresOf sv)).length = rs.length := by
  induction rs with
  | nil => rfl
  | cons r rs ih =>
    simp only [List.flatMap_cons, List.length_append, List.length_cons]
    rcases record_one_outcome sv r with ⟨m, hs, hf, _⟩ | ⟨m, hs, hf, _⟩
    · rw [hs, hf]
      simp only [List.length_cons, List.length_nil]
      omega
    · rw [hs, hf]
      simp only [List.length_cons, List.length_nil]
      omega

/-- The invocation `Handler` returns once pre-flight has passed. -/
theorem Handler_passed (sv : Services) (records : List SQSMessage) (rng : Rng)
    (h : preflight sv = PreFlight.passed) :
    Handler sv records rng =
      some { response :=
               { StatusCode := if (batchLoop sv records rng).failedMessages.length > 0
                   then 207 else 200
                 Environment := sv.ENVIRONMENT
                 Processing :=
                   { TotalMessages := records.length
                     SuccessfulMessages := (batchLoop sv records rng).processedMessages.length
                     FailedMessages := (batchLoop sv records rng).failedMessages.length
                     ProcessedItems := (batchLoop sv records rng).processedMessages
                     FailedItems := (batchLoop sv records rng).failedMessages } }
             err := none
             events := (batchLoop sv records rng).events ++
               [Event.log "Worker processing completed: %+v", Event.flush, Event.close,
                Event.log "InfluxDB connection closed"]
             rng := (batchLoop sv records rng).rng } := by
  unfold preflight at h
  unfold Handler
  cases h1 : sv.newSession with
  | some e => simp [h1] at h
  | none =>
    simp only [h1] at h
    cases h2 : sv.getSecretValue with
    | error e => simp [h2] at h
    | ok o =>
      cases o with
      | none => simp [h2] at h
      | some secretString =>
        simp only [h2] at h
        cases h3 : sv.unmarshalCredentials secretString with
        | error e => simp [h3] at h
        | ok c => simp only [h1, h2, h3]

/-- The invocation `Handler` returns when a pre-flight step fails. -/
theorem Handler_failed (sv : Services) (records : List SQSMessage) (rng : Rng)
    (errMsg err : String) (h : preflight sv = PreFlight.failed errMsg err) :
    ∃ l, Handler sv records rng =
      some { response := createWorkerErrorResponse sv errMsg records.length
             err := some err
             events := [Event.log "Worker Lambda triggered at: %s", Event.log "Event: %+v",
               Event.log l]
             rng := rng } := by
  unfold preflight at h
  unfold Handler
  cases h1 : sv.newSession with
  | some e =>
    simp only [h1, PreFlight.failed.injEq] at h
    obtain ⟨rfl, rfl⟩ := h
    exact ⟨_, by simp only [h1]; rfl⟩
  | none =>
    simp only [h1] at h
    cases h2 : sv.getSecretValue with
    | error e =>
      simp only [h2, PreFlight.failed.injEq] at h
      obtain ⟨rfl, rfl⟩ := h
      exact ⟨_, by simp only [h1, h2]; rfl⟩
    | ok o =>
      cases o with
      | none => simp [h2] at h
      | some secretString =>
        simp only [h2] at h
        cases h3 : sv.unmarshalCredentials secretString with
        | error e =>
          simp only [h3, PreFlight.failed.injEq] at h
          obtain ⟨rfl, rfl⟩ := h
          exact ⟨_, by simp only [h1, h2, h3]; rfl⟩
        | ok c => simp [h3] at h

/-- The invocation panics when the secret has no string value. -/
theorem Handler_nilSecret (sv : Services) (records : List SQSMessage) (rng : Rng)
    (h : preflight sv = PreFlight.nilSecret) : Handler sv records rng = none := by
  unfold preflight at h
  unfold Handler
  cases h1 : sv.newSession with
  | some e => simp [h1] at h
  | none =>
    simp only [h1] at h
    cases h2 : sv.getSecretValue with
    | error e => simp [h2] at h
    | ok o =>
      cases o with
      | none => simp only [h1, h2]
      | some secretString =>
        simp only [h2] at h
        cases h3 : sv.unmarshalCredentials secretString with
        | error e => simp [h3] at h
        | ok c => simp [h3] at h

/-- The status code once pre-flight has passed is decided by the failure count. -/
theorem batch_counts (sv : Services) (records : List SQSMessage) (rng : Rng) :
    ((batchLoop sv records rng).processedMessages.length : Int) +
      (batchLoop sv records rng).failedMessages.length = records.length := by
  rw [batchLoop_processed, batchLoop_failed]
  exact_mod_cast flatMap_lengths sv records

/-- A well-formed `email_notification` item is dispatched without error. -/
theorem dispatchError_email (w : WorkItem) (email template : String)
    (ht : w.Typ = "email_notification")
    (he : w.Payload.lookup "email" = some (JVal.str email))
    (hm : w.Payload.lookup "template" = some (JVal.str template)) :
    dispatchError w = none := by
  unfold dispatchError
  rw [processWorkItem_err_eq]
  unfold dispatch
  simp [ht, processEmailNotification, assertString, he, hm]

/-- An item whose type is none of the five `case` labels is refused. -/
theorem dispatchError_unknown (w : WorkItem)
    (h1 : w.Typ ≠ "data_processing") (h2 : w.Typ ≠ "email_notification")
    (h3 : w.Typ ≠ "data_cleanup") (h4 : w.Typ ≠ "report_generation")
    (h5 : w.Typ ≠ "backup_task") :
    dispatchError w = some ("unknown work item type: " ++ w.Typ) := by
  unfold dispatchError
  rw [processWorkItem_err_eq]
  unfold dispatch
  simp [h1, h2, h3, h4, h5]

/-- The message ids of the two lists together are those of the records, rearranged. -/
theorem ids_perm (sv : Services) (rs : List SQSMessage) :
    ((rs.flatMap (successesOf sv) ++ rs.flatMap (failuresOf sv)).map
      ProcessedMessage.MessageId).Perm (rs.map SQSMessage.MessageId) := by
  induction rs with
  | nil => exact List.Perm.nil
  | cons r rs ih =>
    simp only [List.flatMap_cons, List.map_cons]
    rcases record_one_outcome sv r with ⟨m, hs, hf, hid, _⟩ | ⟨m, hs, hf, hid, _⟩
    · rw [hs, hf, ← hid]
      simpa using ih
    · rw [hs, hf, ← hid]
      simp only [List.nil_append, List.map_append, List.map_cons, List.singleton_append]
      refine List.Perm.trans List.perm_middle ?_
      refine List.Perm.cons _ ?_
      simpa using ih

/-- The successes keep the order of the records. -/
theorem ids_sublist_processed (sv : Services) (rs : List SQSMessage) :
    ((rs.flatMap (successesOf sv)).map ProcessedMessage.MessageId).Sublist
      (rs.map SQSMessage.MessageId) := by
  induction rs with
  | nil => exact List.Sublist.slnil
  | cons r rs ih =>
    simp only [List.flatMap_cons, List.map_cons]
    rcases record_one_outcome sv r with ⟨m, hs, _, hid, _⟩ | ⟨m, hs, _, _, _⟩
    · rw [hs, ← hid]
      exact List.Sublist.cons₂ _ ih
    · rw [hs]
      exact List.Sublist.cons _ ih

/-- The failures keep the order of the records. -/
theorem ids_sublist_failed (sv : Services) (rs : List SQSMessage) :
    ((rs.flatMap (failuresOf sv)).map ProcessedMessage.MessageId).Sublist
      (rs.map SQSMessage.MessageId) := by
  induction rs with
  | nil => exact List.Sublist.slnil
  | cons r rs ih =>
    simp only [List.flatMap_cons, List.map_cons]
    rcases record_one_outcome sv r with ⟨m, _, hf, _, _⟩ | ⟨m, _, hf, hid, _⟩
    · rw [hf]
      exact List.Sublist.cons _ ih
    · rw [hf, ← hid]
      exact List.Sublist.cons₂ _ ih

/-- Every entry the loop records as a success has status `success` and no error. -/
theorem successes_shape (sv : Services) (rs : List SQSMessage) :
    ∀ m ∈ rs.flatMap (successesOf sv), m.Status = "success" ∧ m.Error = none := by
  intro m hm
  obtain ⟨r, _, hr⟩ := List.mem_flatMap.mp hm
  rcases record_one_outcome sv r with ⟨m', hs, _, _, h1, h2⟩ | ⟨m', hs, _, _, _, _⟩
  · rw [hs, List.mem_singleton] at hr
    subst hr
    exact ⟨h1, h2⟩
  · rw [hs] at hr
    cases hr

/-- Every entry the loop records as a failure has status `error` and an error message. -/
theorem failures_shape (sv : Services) (rs : List SQSMessage) :
    ∀ m ∈ rs.flatMap (failuresOf sv), m.Status = "error" ∧ m.Error.isSome = true := by
  intro m hm
  obtain ⟨r, _, hr⟩ := List.mem_flatMap.mp hm
  rcases record_one_outcome sv r with ⟨m', _, hf, _, _, _⟩ | ⟨m', _, hf, _, h1, h2⟩
  · rw [hf] at hr
    cases hr
  · rw [hf, List.mem_singleton] at hr
    subst hr
    exact ⟨h1, h2⟩

/-- The effects of an iteration whose record does not decode. -/
theorem processRecord_decode_failure (sv : Services) (st : LoopState) (r : SQSMessage)
    (w : WorkItem) (e : String) (hd : sv.unmarshalWorkItem r.Body = (w, some e)) :
    (processRecord sv true st r).events = st.events ++
      [Event.log "Processing SQS record: %s",
       Event.log "Failed to parse work item from message %s: %v",
       Event.log "Work item processing completed for message %s: status=%s, duration=%dms",
       Event.writePoint
         { measurement := "work_item_processing"
           tags := [("work_type", if w.Typ = "" then "unknown" else w.Typ),
                    ("status", "error"), ("message_id", r.MessageId)]
           fields := [("work_id", FieldVal.int (if w.Typ = "" then 0 else w.ID)),
                      ("duration_ms", FieldVal.duration),
                      ("error_message", FieldVal.str ("Failed to parse work item: " ++ e))] }]
    ∧ (processRecord sv true st r).rng = st.rng := by
  unfold processRecord attempt processingPoint
  simp only [hd]
  by_cases ht : w.Typ = "" <;> simp [ht]

theorem present_string (payload : Payload) (key : String) :
    present payload key FieldKind.string = (assertString payload key).isSome := by
  simp only [present, assertString]
  cases h : payload.lookup key with
  | none => rfl
  | some v => cases v <;> rfl

theorem present_numeric (payload : Payload) (key : String) :
    present payload key FieldKind.numeric = (assertFloat64 payload key).isSome := by
  simp only [present, assertFloat64]
  cases h : payload.lookup key with
  | none => rfl
  | some v => cases v <;> rfl

theorem validates_email (payload : Payload) (b : Bool) (rng : Rng) :
    Validates ⟨processEmailNotification, "email", FieldKind.string, "template",
      FieldKind.string⟩ payload b rng := by
  unfold Validates
  simp only [present_string]
  refine ⟨?_, ?_, ?_, ?_, fun b' rng' => processEmailNotification_err payload b' b rng' rng⟩
  all_goals
    unfold processEmailNotification
    cases h1 : assertString payload "email" <;>
      cases h2 : assertString payload "template" <;> simp [Event.isPoint]

theorem validates_cleanup (payload : Payload) (b : Bool) (rng : Rng) :
    Validates ⟨processDataCleanup, "table", FieldKind.string, "days",
      FieldKind.numeric⟩ payload b rng := by
  unfold Validates
  simp only [present_string, present_numeric]
  refine ⟨?_, ?_, ?_, ?_, fun b' rng' => processDataCleanup_err payload b' b rng' rng⟩
  all_goals
    unfold processDataCleanup
    cases h1 : assertString payload "table" with
    | none => cases h2 : assertFloat64 payload "days" <;> simp [Event.isPoint]
    | some table =>
      cases h2 : assertFloat64 payload "days" with
      | none => simp [Event.isPoint]
      | some days => by_cases ht : table = "old_logs" <;> simp [ht, Event.isPoint]

theorem validates_report (payload : Payload) (b : Bool) (rng : Rng) :
    Validates ⟨processReportGeneration, "reportType", FieldKind.string, "userId",
      FieldKind.numeric⟩ payload b rng := by
  unfold Validates
  simp only [present_string, present_numeric]
  refine ⟨?_, ?_, ?_, ?_, fun b' rng' => processReportGeneration_err payload b' b rng' rng⟩
  all_goals
    unfold processReportGeneration
    cases h1 : assertString payload "reportType" <;>
      cases h2 : assertFloat64 payload "userId" <;> simp [Event.isPoint]

theorem validates_backup (payload : Payload) (b : Bool) (rng : Rng) :
    Validates ⟨processBackupTask, "database", FieldKind.string, "retention",
      FieldKind.numeric⟩ payload b rng := by
  unfold Validates
  simp only [present_string, present_numeric]
  refine ⟨?_, ?_, ?_, ?_, fun b' rng' => processBackupTask_err payload b' b rng' rng⟩
  all_goals
    unfold processBackupTask
    cases h1 : assertString payload "database" <;>
      cases h2 : assertFloat64 payload "retention" <;> simp [Event.isPoint]

/-! ## The claims about the worker -/

/-- C1: every response the worker `Handler` returns, on the normal path and on each pre-flight
error path, has `totalMessages = successfulMessages + failedMessages`, `totalMessages` equal
to the number of records of the batch, and both counts non-negative. The handler returns a
response unless the secret has no string value, in which case it returns none. -/
theorem worker_summary_counts (sv : Services) (records : List SQSMessage) (rng : Rng) :
    (preflight sv = PreFlight.nilSecret → Handler sv records rng = none) ∧
    (preflight sv ≠ PreFlight.nilSecret →
      ∃ inv, Handler sv records rng = some inv ∧
        inv.response.Processing.TotalMessages =
          inv.response.Processing.SuccessfulMessages +
            inv.response.Processing.FailedMessages ∧
        inv.response.Processing.TotalMessages = records.length ∧
        0 ≤ inv.response.Processing.SuccessfulMessages ∧
        0 ≤ inv.response.Processing.FailedMessages) := by
  refine ⟨Handler_nilSecret sv records rng, ?_⟩
  intro hne
  cases hp : preflight sv with
  | nilSecret => exact absurd hp hne
  | passed =>
    refine ⟨_, Handler_passed sv records rng hp, ?_, rfl, ?_, ?_⟩
    · exact (batch_counts sv records rng).symm
    · exact Int.natCast_nonneg _
    · exact Int.natCast_nonneg _
  | failed errMsg err =>
    obtain ⟨l, hl⟩ := Handler_failed sv records rng errMsg err hp
    refine ⟨_, hl, ?_, rfl, ?_, ?_⟩
    · simp [createWorkerErrorResponse]
    · simp [createWorkerErrorResponse]
    · simp [createWorkerErrorResponse]

theorem worker_summary_counts_witness :
    preflight Sample.services ≠ PreFlight.nilSecret ∧
    ∃ inv, Handler Sample.services Sample.batch Sample.rng = some inv ∧
      inv.response.Processing.TotalMessages =
        inv.response.Processing.SuccessfulMessages +
          inv.response.Processing.FailedMessages ∧
      inv.response.Processing.TotalMessages = Sample.batch.length ∧
      0 ≤ inv.response.Processing.SuccessfulMessages ∧
      0 ≤ inv.response.Processing.FailedMessages :=
  ⟨by decide, (worker_summary_counts Sample.services Sample.batch Sample.rng).2 (by decide)⟩

/-- C2: once pre-flight has passed the status code follows from the counts alone: 200 when no
message failed (so for the empty batch), 207 when at least one failed (so for a non-empty
batch in which none succeeded); a pre-flight failure gives 500; and a batch of a well-formed
`email_notification`, an item of type `unknown_type` and an unparsable body gives total 3,
successful 1, failed 2 and status 207. -/
theorem worker_status_code (sv : Services) (records : List SQSMessage) (rng : Rng) :
    (preflight sv = PreFlight.passed →
      ∃ inv, Handler sv records rng = some inv ∧
        (inv.response.Processing.FailedMessages = 0 → inv.response.StatusCode = 200) ∧
        (0 < inv.response.Processing.FailedMessages → inv.response.StatusCode = 207) ∧
        (records = [] → inv.response.StatusCode = 200) ∧
        (records ≠ [] → inv.response.Processing.SuccessfulMessages = 0 →
          inv.response.StatusCode = 207)) ∧
    (∀ errMsg err, preflight sv = PreFlight.failed errMsg err →
      ∃ inv, Handler sv records rng = some inv ∧ inv.response.StatusCode = 500) ∧
    (∀ (r1 r2 r3 : SQSMessage) (w1 w2 w3 : WorkItem) (email template e : String),
      preflight sv = PreFlight.passed →
      records = [r1, r2, r3] →
      sv.unmarshalWorkItem r1.Body = (w1, none) →
      w1.Typ = "email_notification" →
      w1.Payload.lookup "email" = some (JVal.str email) →
      w1.Payload.lookup "template" = some (JVal.str template) →
      sv.unmarshalWorkItem r2.Body = (w2, none) →
      w2.Typ = "unknown_type" →
      sv.unmarshalWorkItem r3.Body = (w3, some e) →
      ∃ inv, Handler sv records rng = some inv ∧
        inv.response.Processing.TotalMessages = 3 ∧
        inv.response.Processing.SuccessfulMessages = 1 ∧
        inv.response.Processing.FailedMessages = 2 ∧
        inv.response.StatusCode = 207) := by
  refine ⟨?_, ?_, ?_⟩
  · intro hp
    refine ⟨_, Handler_passed sv records rng hp, ?_, ?_, ?_, ?_⟩
    · intro h0
      have h0i : ((batchLoop sv records rng).failedMessages.length : Int) = 0 := h0
      have h0n : (batchLoop sv records rng).failedMessages.length = 0 := by
        exact_mod_cast h0i
      simp [h0n]
    · intro hpos
      have hposi : (0 : Int) < ((batchLoop sv records rng).failedMessages.length : Int) := hpos
      have hposn : 0 < (batchLoop sv records rng).failedMessages.length := by
        exact_mod_cast hposi
      simp [hposn]
    · intro hnil
      subst hnil
      rfl
    · intro hne hs
      have hc := batch_counts sv records rng
      have hs' : ((batchLoop sv records rng).processedMessages.length : Int) = 0 := hs
      have hlen : 0 < records.length := List.length_pos.mpr hne
      have hpos : 0 < (batchLoop sv records rng).failedMessages.length := by omega
      simp [hpos]
  · intro errMsg err hp
    obtain ⟨l, hl⟩ := Handler_failed sv records rng errMsg err hp
    exact ⟨_, hl, rfl⟩
  · intro r1 r2 r3 w1 w2 w3 email template e hp hrec h1 ht1 he hm h2 ht2 h3
    subst hrec
    refine ⟨_, Handler_passed sv _ rng hp, ?_⟩
    have d1 : dispatchError (sv.unmarshalWorkItem r1.Body).1 = none := by
      rw [h1]
      exact dispatchError_email w1 email template ht1 he hm
    have d2 : dispatchError (sv.unmarshalWorkItem r2.Body).1 =
        some ("unknown work item type: " ++ w2.Typ) := by
      rw [h2]
      exact dispatchError_unknown w2 (by rw [ht2]; decide) (by rw [ht2]; decide)
        (by rw [ht2]; decide) (by rw [ht2]; decide) (by rw [ht2]; decide)
    have o1 := ((record_outcome sv r1).2 (by rw [h1])).2 d1
    have o2 := ((record_outcome sv r2).2 (by rw [h2])).1 _ d2
    have o3 := (record_outcome sv r3).1 e (by rw [h3])
    simp only [batchLoop_processed, batchLoop_failed, List.flatMap_cons, List.flatMap_nil,
      o1.1, o1.2, o2.1, o2.2, o3.1, o3.2]
    simp

theorem worker_status_code_witness :
    ∃ inv, Handler Sample.services Sample.batch Sample.rng = some inv ∧
      inv.response.Processing.TotalMessages = 3 ∧
      inv.response.Processing.SuccessfulMessages = 1 ∧
      inv.response.Processing.FailedMessages = 2 ∧
      inv.response.StatusCode = 207 :=
  (worker_status_code Sample.services Sample.batch Sample.rng).2.2
    ⟨"m-1", Sample.emailBody⟩ ⟨"m-2", Sample.unknownTypeBody⟩ ⟨"m-3", Sample.garbageBody⟩
    (Sample.unmarshalWorkItem Sample.emailBody).1
    (Sample.unmarshalWorkItem Sample.unknownTypeBody).1
    (Sample.unmarshalWorkItem Sample.garbageBody).1
    "user@example.com" "welcome" "invalid character 'o' in literal null (expecting 'u')"
    (by decide) rfl rfl (by decide) rfl rfl rfl (by decide) rfl

/-- C3: fail-isolation. Once pre-flight has passed, the processed and failed lists of a batch
`xs ++ ys` are those of `xs` followed by those of `ys`, whatever happened to earlier records;
they are, record by record, what each record yields when it is processed alone, which is one
outcome; so the message ids of the two lists together are a rearrangement of the input's
message ids and each list keeps the input order. -/
theorem worker_fail_isolation (sv : Services) (xs ys : List SQSMessage)
    (rng rngX rngY : Rng) (hp : preflight sv = PreFlight.passed) :
    ∃ inv invX invY,
      Handler sv (xs ++ ys) rng = some inv ∧
      Handler sv xs rngX = some invX ∧
      Handler sv ys rngY = some invY ∧
      inv.response.Processing.ProcessedItems =
        invX.response.Processing.ProcessedItems ++ invY.response.Processing.ProcessedItems ∧
      inv.response.Processing.FailedItems =
        invX.response.Processing.FailedItems ++ invY.response.Processing.FailedItems ∧
      inv.response.Processing.ProcessedItems = (xs ++ ys).flatMap (successesOf sv) ∧
      inv.response.Processing.FailedItems = (xs ++ ys).flatMap (failuresOf sv) ∧
      (∀ r, ∃ invR, Handler sv [r] rngX = some invR ∧
        invR.response.Processing.ProcessedItems = successesOf sv r ∧
        invR.response.Processing.FailedItems = failuresOf sv r ∧
        (invR.response.Processing.ProcessedItems ++
          invR.response.Processing.FailedItems).length = 1) ∧
      ((inv.response.Processing.ProcessedItems ++ inv.response.Processing.FailedItems).map
        ProcessedMessage.MessageId).Perm ((xs ++ ys).map SQSMessage.MessageId) ∧
      (inv.response.Processing.ProcessedItems.map ProcessedMessage.MessageId).Sublist
        ((xs ++ ys).map SQSMessage.MessageId) ∧
      (inv.response.Processing.FailedItems.map ProcessedMessage.MessageId).Sublist
        ((xs ++ ys).map SQSMessage.MessageId) := by
  refine ⟨_, _, _, Handler_passed sv (xs ++ ys) rng hp, Handler_passed sv xs rngX hp,
    Handler_passed sv ys rngY hp, ?_, ?_, ?_, ?_, ?_, ?_, ?_, ?_⟩
  · simp only [batchLoop_processed, List.flatMap_append]
  · simp only [batchLoop_failed, List.flatMap_append]
  · simp only [batchLoop_processed]
  · simp only [batchLoop_failed]
  · intro r
    refine ⟨_, Handler_passed sv [r] rngX hp, ?_, ?_, ?_⟩
    · simp only [batchLoop_processed, List.flatMap_cons, List.flatMap_nil, List.append_nil]
    · simp only [batchLoop_failed, List.flatMap_cons, List.flatMap_nil, List.append_nil]
    · simp only [batchLoop_processed, batchLoop_failed, List.length_append]
      exact flatMap_lengths sv [r]
  · simp only [batchLoop_processed, batchLoop_failed]
    exact ids_perm sv (xs ++ ys)
  · simp only [batchLoop_processed]
    exact ids_sublist_processed sv (xs ++ ys)
  · simp only [batchLoop_failed]
    exact ids_sublist_failed sv (xs ++ ys)

theorem worker_fail_isolation_witness :
    ∃ inv invX invY,
      Handler Sample.services
        ([⟨"m-3", Sample.garbageBody⟩, ⟨"m-2", Sample.unknownTypeBody⟩] ++
          [⟨"m-1", Sample.emailBody⟩]) Sample.rng = some inv ∧
      Handler Sample.services
        [⟨"m-3", Sample.garbageBody⟩, ⟨"m-2", Sample.unknownTypeBody⟩] Sample.rng =
          some invX ∧
      Handler Sample.services [⟨"m-1", Sample.emailBody⟩] Sample.rng = some invY ∧
      inv.response.Processing.ProcessedItems =
        invX.response.Processing.ProcessedItems ++ invY.response.Processing.ProcessedItems ∧
      inv.response.Processing.FailedItems =
        invX.response.Processing.FailedItems ++ invY.response.Processing.FailedItems := by
  obtain ⟨inv, invX, invY, h1, h2, h3, h4, h5, _⟩ :=
    worker_fail_isolation Sample.services
      [⟨"m-3", Sample.garbageBody⟩, ⟨"m-2", Sample.unknownTypeBody⟩]
      [⟨"m-1", Sample.emailBody⟩] Sample.rng Sample.rng Sample.rng (by decide)
  exact ⟨inv, invX, invY, h1, h2, h3, h4, h5⟩

/-- C4: a record whose body does not decode does not abort the batch: the records before and
after it are recorded as they would be without it, and the record itself adds nothing to
`processedItems` and one entry to `failedItems`, with `workId` and `type` the string
`unknown`, status `error`, the record's message id, and the decode error as its error. No
handler runs for it: its iteration only logs and writes the `work_item_processing` point, and
draws no random number. -/
theorem worker_decode_failure (sv : Services) (pre post : List SQSMessage) (r : SQSMessage)
    (w : WorkItem) (e : String) (rng rngA rngB : Rng)
    (hp : preflight sv = PreFlight.passed)
    (hd : sv.unmarshalWorkItem r.Body = (w, some e)) :
    ∃ inv invPre invPost,
      Handler sv (pre ++ r :: post) rng = some inv ∧
      Handler sv pre rngA = some invPre ∧
      Handler sv post rngB = some invPost ∧
      inv.response.Processing.FailedItems =
        invPre.response.Processing.FailedItems ++
          [{ WorkId := WorkIdVal.str "unknown", MessageId := r.MessageId, Typ := "unknown",
             Status := "error", Error := some ("Failed to parse work item: " ++ e) }] ++
          invPost.response.Processing.FailedItems ∧
      inv.response.Processing.ProcessedItems =
        invPre.response.Processing.ProcessedItems ++
          invPost.response.Processing.ProcessedItems ∧
      (∀ st : LoopState,
        (processRecord sv true st r).events = st.events ++
          [Event.log "Processing SQS record: %s",
           Event.log "Failed to parse work item from message %s: %v",
           Event.log
             "Work item processing completed for message %s: status=%s, duration=%dms",
           Event.writePoint
             { measurement := "work_item_processing"
               tags := [("work_type", if w.Typ = "" then "unknown" else w.Typ),
                        ("status", "error"), ("message_id", r.MessageId)]
               fields := [("work_id", FieldVal.int (if w.Typ = "" then 0 else w.ID)),
                          ("duration_ms", FieldVal.duration),
                          ("error_message",
                            FieldVal.str ("Failed to parse work item: " ++ e))] }] ∧
        (processRecord sv true st r).rng = st.rng) := by
  have ho := (record_outcome sv r).1 e (by rw [hd])
  refine ⟨_, _, _, Handler_passed sv (pre ++ r :: post) rng hp, Handler_passed sv pre rngA hp,
    Handler_passed sv post rngB hp, ?_, ?_, ?_⟩
  · simp only [batchLoop_failed, List.flatMap_append, List.flatMap_cons, ho.2,
      List.append_assoc]
  · simp only [batchLoop_processed, List.flatMap_append, List.flatMap_cons, ho.1,
      List.nil_append]
  · intro st
    exact processRecord_decode_failure sv st r w e hd

theorem worker_decode_failure_witness :
    ∃ inv invPre invPost,
      Handler Sample.services
        ([⟨"m-1", Sample.emailBody⟩] ++ ⟨"m-3", Sample.garbageBody⟩ ::
          [⟨"m-2", Sample.unknownTypeBody⟩]) Sample.rng = some inv ∧
      Handler Sample.services [⟨"m-1", Sample.emailBody⟩] Sample.rng = some invPre ∧
      Handler Sample.services [⟨"m-2", Sample.unknownTypeBody⟩] Sample.rng = some invPost ∧
      inv.response.Processing.FailedItems =
        invPre.response.Processing.FailedItems ++
          [{ WorkId := WorkIdVal.str "unknown", MessageId := "m-3", Typ := "unknown",
             Status := "error"
             Error := some ("Failed to parse work item: " ++
               "invalid character 'o' in literal null (expecting 'u')") }] ++
          invPost.response.Processing.FailedItems ∧
      inv.response.Processing.ProcessedItems =
        invPre.response.Processing.ProcessedItems ++
          invPost.response.Processing.ProcessedItems := by
  obtain ⟨inv, invPre, invPost, h1, h2, h3, h4, h5, _⟩ :=
    worker_decode_failure Sample.services [⟨"m-1", Sample.emailBody⟩]
      [⟨"m-2", Sample.unknownTypeBody⟩] ⟨"m-3", Sample.garbageBody⟩
      (Sample.unmarshalWorkItem Sample.garbageBody).1
      "invalid character 'o' in literal null (expecting 'u')"
      Sample.rng Sample.rng Sample.rng (by decide) rfl
  exact ⟨inv, invPre, invPost, h1, h2, h3, h4, h5⟩

/-- C5: a record that decodes into a work item is recorded with the item's id and type and the
record's message id: when `processWorkItem` returns no error, as a `success` without error
appended to `processedItems`; when it returns an error, as an `error` carrying that error
message unchanged, appended to `failedItems`. In every summary of the normal path an outcome
has an error exactly when its status is `error`. -/
theorem worker_dispatch_outcome (sv : Services) (records : List SQSMessage) (rng : Rng)
    (hp : preflight sv = PreFlight.passed) :
    (∃ inv, Handler sv records rng = some inv ∧
      (∀ m ∈ inv.response.Processing.ProcessedItems, m.Status = "success" ∧ m.Error = none) ∧
      (∀ m ∈ inv.response.Processing.FailedItems,
        m.Status = "error" ∧ m.Error.isSome = true) ∧
      (∀ m ∈ inv.response.Processing.ProcessedItems ++ inv.response.Processing.FailedItems,
        m.Error.isSome = true ↔ m.Status = "error")) ∧
    (∀ (pre post : List SQSMessage) (r : SQSMessage) (w : WorkItem) (rngA rngB : Rng)
        (b : Bool) (rngW : Rng),
      records = pre ++ r :: post →
      sv.unmarshalWorkItem r.Body = (w, none) →
      ∃ inv invPre invPost,
        Handler sv records rng = some inv ∧
        Handler sv pre rngA = some invPre ∧
        Handler sv post rngB = some invPost ∧
        ((processWorkItem w b rngW).err = none →
          inv.response.Processing.ProcessedItems =
            invPre.response.Processing.ProcessedItems ++
              [{ WorkId := WorkIdVal.int w.ID, MessageId := r.MessageId, Typ := w.Typ,
                 Status := "success", Error := none }] ++
              invPost.response.Processing.ProcessedItems ∧
          inv.response.Processing.FailedItems =
            invPre.response.Processing.FailedItems ++
              invPost.response.Processing.FailedItems) ∧
        (∀ msg, (processWorkItem w b rngW).err = some msg →
          inv.response.Processing.FailedItems =
            invPre.response.Processing.FailedItems ++
              [{ WorkId := WorkIdVal.int w.ID, MessageId := r.MessageId, Typ := w.Typ,
                 Status := "error", Error := some msg }] ++
              invPost.response.Processing.FailedItems ∧
          inv.response.Processing.ProcessedItems =
            invPre.response.Processing.ProcessedItems ++
              invPost.response.Processing.ProcessedItems)) := by
  refine ⟨⟨_, Handler_passed sv records rng hp, ?_, ?_, ?_⟩, ?_⟩
  · simp only [batchLoop_processed]
    exact successes_shape sv records
  · simp only [batchLoop_failed]
    exact failures_shape sv records
  · simp only [batchLoop_processed, batchLoop_failed]
    intro m hm
    rcases List.mem_append.mp hm with h | h
    · obtain ⟨h1, h2⟩ := successes_shape sv records m h
      rw [h1, h2]
      decide
    · obtain ⟨h1, h2⟩ := failures_shape sv records m h
      rw [h1, h2]
      decide
  · intro pre post r w rngA rngB b rngW hrec hd
    subst hrec
    have hsnd : (sv.unmarshalWorkItem r.Body).2 = none := by rw [hd]
    have hfst : (sv.unmarshalWorkItem r.Body).1 = w := by rw [hd]
    have ho := (record_outcome sv r).2 hsnd
    rw [hfst] at ho
    refine ⟨_, _, _, Handler_passed sv (pre ++ r :: post) rng hp,
      Handler_passed sv pre rngA hp, Handler_passed sv post rngB hp, ?_, ?_⟩
    · intro hnone
      rw [processWorkItem_err] at hnone
      obtain ⟨hs, hf⟩ := ho.2 hnone
      constructor
      · simp only [batchLoop_processed, List.flatMap_append, List.flatMap_cons, hs,
          List.append_assoc]
      · simp only [batchLoop_failed, List.flatMap_append, List.flatMap_cons, hf,
          List.nil_append]
    · intro msg hsome
      rw [processWorkItem_err] at hsome
      obtain ⟨hs, hf⟩ := ho.1 msg hsome
      constructor
      · simp only [batchLoop_failed, List.flatMap_append, List.flatMap_cons, hf,
          List.append_assoc]
      · simp only [batchLoop_processed, List.flatMap_append, List.flatMap_cons, hs,
          List.nil_append]

theorem worker_dispatch_outcome_witness :
    (∃ inv, Handler Sample.services Sample.batch Sample.rng = some inv ∧
      (∀ m ∈ inv.response.Processing.ProcessedItems, m.Status = "success" ∧ m.Error = none) ∧
      (∀ m ∈ inv.response.Processing.FailedItems,
        m.Status = "error" ∧ m.Error.isSome = true)) ∧
    (∃ inv invPre invPost,
      Handler Sample.services Sample.batch Sample.rng = some inv ∧
      Handler Sample.services [] Sample.rng = some invPre ∧
      Handler Sample.services
        [⟨"m-2", Sample.unknownTypeBody⟩, ⟨"m-3", Sample.garbageBody⟩] Sample.rng =
          some invPost ∧
      inv.response.Processing.ProcessedItems =
        invPre.response.Processing.ProcessedItems ++
          [{ WorkId := WorkIdVal.int 2, MessageId := "m-1", Typ := "email_notification",
             Status := "success", Error := none }] ++
          invPost.response.Processing.ProcessedItems) := by
  constructor
  · obtain ⟨inv, h1, h2, h3, _⟩ :=
      (worker_dispatch_outcome Sample.services Sample.batch Sample.rng (by decide)).1
    exact ⟨inv, h1, h2, h3⟩
  · obtain ⟨inv, invPre, invPost, h1, h2, h3, h4, _⟩ :=
      (worker_dispatch_outcome Sample.services Sample.batch Sample.rng (by decide)).2
        [] [⟨"m-2", Sample.unknownTypeBody⟩, ⟨"m-3", Sample.garbageBody⟩]
        ⟨"m-1", Sample.emailBody⟩ (Sample.unmarshalWorkItem Sample.emailBody).1
        Sample.rng Sample.rng true Sample.rng rfl rfl
    exact ⟨inv, invPre, invPost, h1, h2, h3, (h4 (by decide)).1⟩

/-- C6: for a work item whose type is none of the five registered tags (the empty string
included) `processWorkItem` fails with an error naming the type, runs no handler (it has no
effect at all, so no metric point) and draws no random number; for an item whose type is a
registered tag it runs that tag's handler and nothing else, returns the handler's error
unchanged, and only after a handler success adds its own completion point and log line. -/
theorem processWorkItem_dispatch (w : WorkItem) (b : Bool) (rng : Rng) :
    builtinHandlers.map Prod.fst =
      ["data_processing", "email_notification", "data_cleanup", "report_generation",
       "backup_task"] ∧
    ((∀ entry ∈ builtinHandlers, w.Typ ≠ entry.1) →
      (processWorkItem w b rng).err = some ("unknown work item type: " ++ w.Typ) ∧
      (processWorkItem w b rng).events = [] ∧
      (processWorkItem w b rng).rng = rng) ∧
    (∀ entry ∈ builtinHandlers, w.Typ = entry.1 →
      (processWorkItem w b rng).err = (entry.2 w.Payload b rng).err ∧
      (processWorkItem w b rng).rng = (entry.2 w.Payload b rng).rng ∧
      (processWorkItem w b rng).events = (entry.2 w.Payload b rng).events ++
        (if (entry.2 w.Payload b rng).err = none then completionEvents w b else [])) := by
  have key : ∀ r : Run, dispatch w b rng = some r →
      (processWorkItem w b rng).err = r.err ∧ (processWorkItem w b rng).rng = r.rng ∧
      (processWorkItem w b rng).events = r.events ++
        (if r.err = none then completionEvents w b else []) := by
    intro r hr
    unfold processWorkItem
    rw [hr]
    obtain ⟨e, evs, g⟩ := r
    cases e with
    | some e => simp
    | none =>
      cases b <;> simp [completionEvents]
  refine ⟨rfl, ?_, ?_⟩
  · intro h
    have h1 := h _ (List.mem_cons_self _ _)
    have h2 := h _ (List.mem_cons_of_mem _ (List.mem_cons_self _ _))
    have h3 := h _ (List.mem_cons_of_mem _ (List.mem_cons_of_mem _ (List.mem_cons_self _ _)))
    have h4 := h _ (List.mem_cons_of_mem _ (List.mem_cons_of_mem _
      (List.mem_cons_of_mem _ (List.mem_cons_self _ _))))
    have h5 := h _ (List.mem_cons_of_mem _ (List.mem_cons_of_mem _
      (List.mem_cons_of_mem _ (List.mem_cons_of_mem _ (List.mem_cons_self _ _)))))
    simp only [ne_eq] at h1 h2 h3 h4 h5
    have hd : dispatch w b rng = none := by
      unfold dispatch
      simp [h1, h2, h3, h4, h5]
    unfold processWorkItem
    rw [hd]
    exact ⟨rfl, rfl, rfl⟩
  · intro entry hmem ht
    apply key
    unfold dispatch
    simp only [builtinHandlers, List.mem_cons, List.mem_singleton, List.mem_nil_iff,
      or_false] at hmem
    rcases hmem with rfl | rfl | rfl | rfl | rfl <;> simp [ht]

theorem processWorkItem_dispatch_witness :
    ((processWorkItem ⟨9, "", []⟩ true Sample.rng).err = some ("unknown work item type: " ++ "") ∧
      (processWorkItem ⟨9, "", []⟩ true Sample.rng).events = [] ∧
      (processWorkItem ⟨9, "", []⟩ true Sample.rng).rng = Sample.rng) ∧
    ((processWorkItem ⟨4, "report_generation", []⟩ true Sample.rng).err =
        (processReportGeneration [] true Sample.rng).err ∧
      (processWorkItem ⟨4, "report_generation", []⟩ true Sample.rng).rng =
        (processReportGeneration [] true Sample.rng).rng ∧
      (processWorkItem ⟨4, "report_generation", []⟩ true Sample.rng).events =
        (processReportGeneration [] true Sample.rng).events ++
          (if (processReportGeneration [] true Sample.rng).err = none
            then completionEvents ⟨4, "report_generation", []⟩ true else [])) :=
  ⟨(processWorkItem_dispatch ⟨9, "", []⟩ true Sample.rng).2.1 (by decide),
   (processWorkItem_dispatch ⟨4, "report_generation", []⟩ true Sample.rng).2.2
     ("report_generation", processReportGeneration)
     (List.mem_cons_of_mem _ (List.mem_cons_of_mem _
       (List.mem_cons_of_mem _ (List.mem_cons_self _ _)))) rfl⟩

/-- C7, as the code has it: when a pre-flight step fails (session creation, secret retrieval
or credential parsing) for a batch of `N` records, the worker returns the step's error as the
invocation error together with a response of status 500 whose summary counts all `N` messages
as failed (`totalMessages = failedMessages = N`, `successfulMessages = 0`) and whose
`processedItems` and `failedItems` are both empty; no record is decoded or dispatched (the
invocation only logs three lines) and no random number is drawn. -/
theorem worker_preflight_failure (sv : Services) (records : List SQSMessage) (rng : Rng)
    (errMsg err : String) (h : preflight sv = PreFlight.failed errMsg err) :
    ∃ inv l, Handler sv records rng = some inv ∧
      inv.err = some err ∧
      inv.response.StatusCode = 500 ∧
      inv.response.Processing.TotalMessages = records.length ∧
      inv.response.Processing.SuccessfulMessages = 0 ∧
      inv.response.Processing.FailedMessages = records.length ∧
      inv.response.Processing.ProcessedItems = [] ∧
      inv.response.Processing.FailedItems = [] ∧
      inv.events = [Event.log "Worker Lambda triggered at: %s", Event.log "Event: %+v",
        Event.log l] ∧
      inv.rng = rng := by
  obtain ⟨l, hl⟩ := Handler_failed sv records rng errMsg err h
  exact ⟨_, l, hl, rfl, rfl, rfl, rfl, rfl, rfl, rfl, rfl, rfl⟩

theorem worker_preflight_failure_witness :
    ∃ inv l, Handler Sample.failingServices Sample.batch Sample.rng = some inv ∧
      inv.err = some "AccessDeniedException" ∧
      inv.response.StatusCode = 500 ∧
      inv.response.Processing.TotalMessages = Sample.batch.length ∧
      inv.response.Processing.SuccessfulMessages = 0 ∧
      inv.response.Processing.FailedMessages = Sample.batch.length ∧
      inv.response.Processing.ProcessedItems = [] ∧
      inv.response.Processing.FailedItems = [] ∧
      inv.events = [Event.log "Worker Lambda triggered at: %s", Event.log "Event: %+v",
        Event.log l] ∧
      inv.rng = Sample.rng :=
  worker_preflight_failure Sample.failingServices Sample.batch Sample.rng
    "Failed to retrieve secret: AccessDeniedException" "AccessDeniedException" (by decide)

/-- C7 as stated fails: with the secret retrieval failing on a batch of three records, the
returned summary does not list one failed entry per record. -/
theorem worker_preflight_failure_counterexample :
    preflight Sample.failingServices =
      PreFlight.failed "Failed to retrieve secret: AccessDeniedException"
        "AccessDeniedException" ∧
    Sample.batch.length = 3 ∧
    ¬ ∃ inv, Handler Sample.failingServices Sample.batch Sample.rng = some inv ∧
      inv.response.Processing.FailedItems.length = Sample.batch.length := by
  refine ⟨by decide, by decide, ?_⟩
  rintro ⟨inv, hinv, hlen⟩
  obtain ⟨l, hl⟩ := Handler_failed Sample.failingServices Sample.batch Sample.rng
    "Failed to retrieve secret: AccessDeniedException" "AccessDeniedException" (by decide)
  rw [hl] at hinv
  cases hinv
  simp [createWorkerErrorResponse, Sample.batch] at hlen

/-- C8: each of `processEmailNotification` (email, template: strings), `processDataCleanup`
(table: string, days: numeric), `processReportGeneration` (reportType: string, userId:
numeric) and `processBackupTask` (database: string, retention: numeric) succeeds exactly when
both required fields are present with the required type; otherwise it fails with the error
naming the first of the two that is absent or of the wrong type, and its run contains no
metric point. The error does not depend on the random stream nor on whether a sink is
attached. -/
theorem handlers_validate_required_fields (payload : Payload) (b : Bool) (rng : Rng) :
    requirements.map (fun q => (q.first, q.firstKind, q.second, q.secondKind)) =
      [("email", FieldKind.string, "template", FieldKind.string),
       ("table", FieldKind.string, "days", FieldKind.numeric),
       ("reportType", FieldKind.string, "userId", FieldKind.numeric),
       ("database", FieldKind.string, "retention", FieldKind.numeric)] ∧
    ∀ q ∈ requirements,
      ((q.handler payload b rng).err = none ↔
        (present payload q.first q.firstKind = true ∧
          present payload q.second q.secondKind = true)) ∧
      (present payload q.first q.firstKind = false →
        (q.handler payload b rng).err =
          some ("missing or invalid " ++ q.first ++ " in payload")) ∧
      (present payload q.first q.firstKind = true →
        present payload q.second q.secondKind = false →
        (q.handler payload b rng).err =
          some ("missing or invalid " ++ q.second ++ " in payload")) ∧
      ((q.handler payload b rng).err ≠ none →
        ∀ ev ∈ (q.handler payload b rng).events, ev.isPoint = false) ∧
      (∀ (b' : Bool) (rng' : Rng),
        (q.handler payload b' rng').err = (q.handler payload b rng).err) := by
  refine ⟨rfl, ?_⟩
  intro q hq
  simp only [requirements, List.mem_cons, List.mem_singleton, List.mem_nil_iff,
    or_false] at hq
  rcases hq with rfl | rfl | rfl | rfl
  · exact validates_email payload b rng
  · exact validates_cleanup payload b rng
  · exact validates_report payload b rng
  · exact validates_backup payload b rng

theorem handlers_validate_required_fields_witness :
    (processDataCleanup [("table", JVal.str "old_logs"), ("days", JVal.str "30")] true
        Sample.rng).err = some ("missing or invalid " ++ "days" ++ " in payload") ∧
    (processBackupTask [("retention", JVal.num 7)] true Sample.rng).err =
      some ("missing or invalid " ++ "database" ++ " in payload") ∧
    (processEmailNotification
        [("email", JVal.str "user@example.com"), ("template", JVal.str "welcome")] true
        Sample.rng).err = none :=
  ⟨((handlers_validate_required_fields
      [("table", JVal.str "old_logs"), ("days", JVal.str "30")] true Sample.rng).2
      ⟨processDataCleanup, "table", FieldKind.string, "days", FieldKind.numeric⟩
      (List.mem_cons_of_mem _ (List.mem_cons_self _ _))).2.2.1 (by decide) (by decide),
   ((handlers_validate_required_fields [("retention", JVal.num 7)] true Sample.rng).2
      ⟨processBackupTask, "database", FieldKind.string, "retention", FieldKind.numeric⟩
      (List.mem_cons_of_mem _ (List.mem_cons_of_mem _
        (List.mem_cons_of_mem _ (List.mem_cons_self _ _))))).2.1 (by decide),
   ((handlers_validate_required_fields
      [("email", JVal.str "user@example.com"), ("template", JVal.str "welcome")] true
      Sample.rng).2
      ⟨processEmailNotification, "email", FieldKind.string, "template", FieldKind.string⟩
      (List.mem_cons_self _ _)).1.mpr ⟨by decide, by decide⟩⟩

/-- C9, as the code has it: `processDataItem` fails with the error naming `action`, before any
simulated work and without a metric point, when `action` is absent or not a string. When
`action` is a string other than `update_profile` it succeeds as a no-op (no simulated work, no
metric point, no random draw) whether or not `userId` is there. When `action` is
`update_profile` it fails with the error naming `userId`, without a metric point, if `userId`
is absent or not numeric, and otherwise succeeds having done the simulated work, with the
`user_activity` point written when a sink is attached. -/
theorem processDataItem_validation (payload : Payload) (b : Bool) (rng : Rng) :
    (present payload "action" FieldKind.string = false →
      (processDataItem payload b rng).err = some "missing or invalid action in payload" ∧
      (processDataItem payload b rng).events = [Event.log "Processing data item: %+v"]) ∧
    (∀ action, payload.lookup "action" = some (JVal.str action) →
      action ≠ "update_profile" →
      (processDataItem payload b rng).err = none ∧
      (processDataItem payload b rng).events = [Event.log "Processing data item: %+v"] ∧
      (processDataItem payload b rng).rng = rng) ∧
    (payload.lookup "action" = some (JVal.str "update_profile") →
      present payload "userId" FieldKind.numeric = false →
      (processDataItem payload b rng).err = some "missing or invalid userId in payload" ∧
      ∀ ev ∈ (processDataItem payload b rng).events, ev.isPoint = false) ∧
    (payload.lookup "action" = some (JVal.str "update_profile") →
      present payload "userId" FieldKind.numeric = true →
      (processDataItem payload b rng).err = none ∧
      Event.sleep 100 ∈ (processDataItem payload b rng).events ∧
      (b = true → ∃ ev ∈ (processDataItem payload b rng).events, ev.isPoint = true)) := by
  refine ⟨?_, ?_, ?_, ?_⟩
  · intro h
    rw [present_string] at h
    unfold processDataItem
    cases ha : assertString payload "action" with
    | none => exact ⟨rfl, rfl⟩
    | some a => simp [ha] at h
  · intro action ha hne
    have hs : assertString payload "action" = some action := by
      simp [assertString, ha]
    unfold processDataItem
    simp [hs, hne]
  · intro ha hu
    have hs : assertString payload "action" = some "update_profile" := by
      simp [assertString, ha]
    rw [present_numeric] at hu
    unfold processDataItem
    cases hf : assertFloat64 payload "userId" with
    | none => simp [hs, Event.isPoint]
    | some x => simp [hf] at hu
  · intro ha hu
    have hs : assertString payload "action" = some "update_profile" := by
      simp [assertString, ha]
    rw [present_numeric] at hu
    unfold processDataItem
    cases hf : assertFloat64 payload "userId" with
    | none => simp [hf] at hu
    | some x =>
      cases b <;> simp [hs, Event.isPoint]

theorem processDataItem_validation_witness :
    ((processDataItem [("userId", JVal.num 123)] true Sample.rng).err =
        some "missing or invalid action in payload" ∧
      (processDataItem [("userId", JVal.num 123)] true Sample.rng).events =
        [Event.log "Processing data item: %+v"]) ∧
    ((processDataItem [("action", JVal.str "archive")] true Sample.rng).err = none ∧
      (processDataItem [("action", JVal.str "archive")] true Sample.rng).events =
        [Event.log "Processing data item: %+v"] ∧
      (processDataItem [("action", JVal.str "archive")] true Sample.rng).rng = Sample.rng) ∧
    ((processDataItem [("action", JVal.str "update_profile"), ("userId", JVal.str "x")] true
        Sample.rng).err = some "missing or invalid userId in payload" ∧
      ∀ ev ∈ (processDataItem [("action", JVal.str "update_profile"), ("userId", JVal.str "x")]
        true Sample.rng).events, ev.isPoint = false) ∧
    ((processDataItem [("userId", JVal.num 123), ("action", JVal.str "update_profile")] true
        Sample.rng).err = none ∧
      Event.sleep 100 ∈ (processDataItem
        [("userId", JVal.num 123), ("action", JVal.str "update_profile")] true
        Sample.rng).events ∧
      (true = true → ∃ ev ∈ (processDataItem
        [("userId", JVal.num 123), ("action", JVal.str "update_profile")] true
        Sample.rng).events, ev.isPoint = true)) :=
  ⟨(processDataItem_validation [("userId", JVal.num 123)] true Sample.rng).1 (by decide),
   (processDataItem_validation [("action", JVal.str "archive")] true Sample.rng).2.1
     "archive" rfl (by decide),
   (processDataItem_validation [("action", JVal.str "update_profile"), ("userId", JVal.str "x")]
     true Sample.rng).2.2.1 rfl (by decide),
   (processDataItem_validation [("userId", JVal.num 123), ("action", JVal.str "update_profile")]
     true Sample.rng).2.2.2 rfl (by decide)⟩

/-- C9 as stated fails: a payload whose `action` is a string other than `update_profile` and
that has no `userId` is accepted, and with `action` equal to `update_profile` the missing
`userId` is reported only after the simulated work of 100 ms. -/
theorem processDataItem_counterexample :
    (present [("action", JVal.str "archive")] "userId" FieldKind.numeric = false ∧
      (processDataItem [("action", JVal.str "archive")] true Sample.rng).err = none) ∧
    (present [("action", JVal.str "update_profile")] "userId" FieldKind.numeric = false ∧
      (processDataItem [("action", JVal.str "update_profile")] true Sample.rng).err =
        some "missing or invalid userId in payload" ∧
      (processDataItem [("action", JVal.str "update_profile")] true Sample.rng).events =
        [Event.log "Processing data item: %+v", Event.sleep 100]) := by
  decide

end Worker

/-! ## Properties of the producer -/

namespace Producer

/-- The invocation `Handler` returns once pre-flight has passed. -/
theorem HandlerOn_passed (sv : Services) (items : List WorkItem)
    (h : preflightPassed sv = true) :
    HandlerOn sv items = some (conclude sv (publishLoop sv sv.SQS_QUEUE_URL items loopStart)) := by
  unfold preflightPassed at h
  unfold HandlerOn
  cases h1 : sv.loadDefaultConfig with
  | some e => simp [h1] at h
  | none =>
    cases h2 : sv.getSecretValue with
    | error e => simp [h1, h2] at h
    | ok o =>
      cases o with
      | none => simp [h1, h2] at h
      | some secretString =>
        simp only [h1, h2] at h
        cases h3 : sv.unmarshalCredentials secretString with
        | error e => simp [h3] at h
        | ok c =>
          simp only [h3, bne_iff_ne, ne_eq] at h
          simp only [h1, h2, h3, h, if_false]

/-- A loop that runs to the end over `pre` goes on with the remaining items from the state it
reached. -/
theorem publishLoop_append (sv : Services) (url : String) (pre rest : List WorkItem)
    (st st1 : LoopState) (h : publishLoop sv url pre st = (st1, LoopExit.completed)) :
    publishLoop sv url (pre ++ rest) st = publishLoop sv url rest st1 := by
  induction pre generalizing st with
  | nil =>
    simp only [publishLoop, Prod.mk.injEq, and_true] at h
    subst h
    rfl
  | cons item pre ih =>
    simp only [List.cons_append, publishLoop] at h ⊢
    cases hm : sv.marshal item with
    | error e => simp [hm] at h
    | ok body =>
      simp only [hm] at h ⊢
      cases hs : sv.sendMessage st.attempts (messageParams url item body) with
      | error e => simp [hs] at h
      | ok messageId =>
        simp only [hs] at h ⊢
        exact ih _ h

/-- A loop that runs to the end has made one `SendMessage` call per item, in order, each with
the item's marshalled body and attributes, and has recorded one outcome per item, in order,
with the item's id and type. -/
theorem publishLoop_completed (sv : Services) (url : String) (items : List WorkItem)
    (st st1 : LoopState) (h : publishLoop sv url items st = (st1, LoopExit.completed)) :
    ∃ calls sent,
      st1.attempts = st.attempts ++ calls ∧
      st1.messagesSent = st.messagesSent ++ sent ∧
      List.Forall₂ (fun call item => ∃ body, sv.marshal item = Except.ok body ∧
        call = messageParams url item body) calls items ∧
      List.Forall₂ (fun (m : MessageSent) (item : WorkItem) =>
        m.WorkId = item.ID ∧ m.Typ = item.Typ) sent items := by
  induction items generalizing st with
  | nil =>
    simp only [publishLoop, Prod.mk.injEq, and_true] at h
    subst h
    exact ⟨[], [], by simp, by simp, List.Forall₂.nil, List.Forall₂.nil⟩
  | cons item items ih =>
    simp only [publishLoop] at h
    cases hm : sv.marshal item with
    | error e => simp [hm] at h
    | ok body =>
      simp only [hm] at h
      cases hs : sv.sendMessage st.attempts (messageParams url item body) with
      | error e => simp [hs] at h
      | ok messageId =>
        simp only [hs] at h
        obtain ⟨calls, sent, ha, hms, hc, hsent⟩ := ih _ h
        refine ⟨messageParams url item body :: calls,
          { WorkId := item.ID, MessageId := messageId, Typ := item.Typ } :: sent, ?_, ?_, ?_, ?_⟩
        · simpa using ha
        · simpa using hms
        · exact List.Forall₂.cons ⟨body, hm, rfl⟩ hc
        · exact List.Forall₂.cons ⟨rfl, rfl⟩ hsent

/-- The loop when the publish of its first remaining item fails. -/
theorem publishLoop_send_fails (sv : Services) (url : String) (k : WorkItem)
    (post : List WorkItem) (st : LoopState) (body e : String)
    (hm : sv.marshal k = Except.ok body)
    (hk : sv.sendMessage st.attempts (messageParams url k body) = Except.error e) :
    publishLoop sv url (k :: post) st =
      ({ st with
         attempts := st.attempts ++ [messageParams url k body]
         events := st.events ++
           [Event.log ("Failed to send work item " ++ toString k.ID ++ " to SQS: " ++ e)] },
       LoopExit.aborted ("Failed to send work item " ++ toString k.ID ++ " to SQS: " ++ e)
         e) := by
  simp only [publishLoop, hm, hk]

/-! ## The claims about the producer -/

/-- C10: producer fail-fast. Let pre-flight pass and the queue URL be set, let the publish loop
run to the end over the items `pre` (each is marshalled and published), and let the publish of
the next item `k` fail with `e`, whatever the queue would answer afterwards. Then the producer
has called `SendMessage` once for each item of `pre` and then for `k`, in input order, and for
no item after `k` (the items after `k` have no influence on the invocation at all); the items
published are exactly those of `pre`; and it returns a failure: status 500, `success = false`,
the error message naming the id of `k`, and `e` as the invocation error. -/
theorem producer_fail_fast (sv : Services) (pre post : List WorkItem) (k : WorkItem)
    (st : LoopState) (body e : String)
    (hp : preflightPassed sv = true)
    (hpre : publishLoop sv sv.SQS_QUEUE_URL pre loopStart = (st, LoopExit.completed))
    (hm : sv.marshal k = Except.ok body)
    (hk : sv.sendMessage st.attempts (messageParams sv.SQS_QUEUE_URL k body) =
      Except.error e) :
    ∃ inv, HandlerOn sv (pre ++ k :: post) = some inv ∧
      HandlerOn sv (pre ++ [k]) = some inv ∧
      inv.attempts = st.attempts ++ [messageParams sv.SQS_QUEUE_URL k body] ∧
      List.Forall₂ (fun call item => ∃ b, sv.marshal item = Except.ok b ∧
        call = messageParams sv.SQS_QUEUE_URL item b) inv.attempts (pre ++ [k]) ∧
      inv.attempts.length = pre.length + 1 ∧
      List.Forall₂ (fun (m : MessageSent) (item : WorkItem) =>
        m.WorkId = item.ID ∧ m.Typ = item.Typ) st.messagesSent pre ∧
      inv.response.StatusCode = 500 ∧
      inv.response.CronJob.Success = false ∧
      inv.response.CronJob.Error =
        some ("Failed to send work item " ++ toString k.ID ++ " to SQS: " ++ e) ∧
      inv.err = some e := by
  obtain ⟨calls, sent, ha, hs, hc, hsent⟩ :=
    publishLoop_completed sv sv.SQS_QUEUE_URL pre loopStart st hpre
  have ha' : st.attempts = calls := by simpa [loopStart] using ha
  have hs' : st.messagesSent = sent := by simpa [loopStart] using hs
  have hrun : ∀ rest, HandlerOn sv (pre ++ k :: rest) =
      some (conclude sv
        ({ st with
           attempts := st.attempts ++ [messageParams sv.SQS_QUEUE_URL k body]
           events := st.events ++
             [Event.log ("Failed to send work item " ++ toString k.ID ++ " to SQS: " ++ e)] },
         LoopExit.aborted ("Failed to send work item " ++ toString k.ID ++ " to SQS: " ++ e)
           e)) := by
    intro rest
    rw [HandlerOn_passed sv _ hp, publishLoop_append sv _ pre (k :: rest) loopStart st hpre,
      publishLoop_send_fails sv _ k rest st body e hm hk]
  have hall : List.Forall₂ (fun call item => ∃ b, sv.marshal item = Except.ok b ∧
      call = messageParams sv.SQS_QUEUE_URL item b)
      (st.attempts ++ [messageParams sv.SQS_QUEUE_URL k body]) (pre ++ [k]) := by
    rw [ha']
    exact List.rel_append hc (List.Forall₂.cons ⟨body, hm, rfl⟩ List.Forall₂.nil)
  refine ⟨_, hrun post, hrun [], rfl, hall, ?_, ?_, rfl, rfl, rfl, rfl⟩
  · have := hall.length_eq
    simpa [conclude] using this
  · rw [hs']
    exact hsent

theorem producer_fail_fast_witness :
    ∃ inv, Handler Sample.producerServices = some inv ∧
      inv.attempts.map (fun call => call.workId) = ["1", "2", "3"] ∧
      inv.response.StatusCode = 500 ∧
      inv.response.CronJob.Success = false ∧
      inv.response.CronJob.Error =
        some "Failed to send work item 3 to SQS: QueueDoesNotExist" ∧
      inv.err = some "QueueDoesNotExist" := by
  obtain ⟨inv, h1, _, h3, _, _, _, h7, h8, h9, h10⟩ :=
    producer_fail_fast Sample.producerServices (workItems.take 2) (workItems.drop 3)
      ⟨3, "data_cleanup", [("table", JVal.str "old_logs"), ("days", JVal.num 30)]⟩
      (publishLoop Sample.producerServices Sample.producerServices.SQS_QUEUE_URL
        (workItems.take 2) loopStart).1
      "item-3" "QueueDoesNotExist" (by decide) rfl rfl rfl
  refine ⟨inv, h1, ?_, h7, h8, ?_, h10⟩
  · rw [h3]
    decide
  · rw [h9]
    decide

/-! ## The producer's response after the loop -/

/-- The invocation when the loop runs to the end over `pre` and the publish of the next item
fails. -/
theorem HandlerOn_first_failure (sv : Services) (pre rest : List WorkItem) (k : WorkItem)
    (st : LoopState) (body e : String)
    (hp : preflightPassed sv = true)
    (hpre : publishLoop sv sv.SQS_QUEUE_URL pre loopStart = (st, LoopExit.completed))
    (hm : sv.marshal k = Except.ok body)
    (hk : sv.sendMessage st.attempts (messageParams sv.SQS_QUEUE_URL k body) =
      Except.error e) :
    HandlerOn sv (pre ++ k :: rest) =
      some { response := createErrorResponse sv
               ("Failed to send work item " ++ toString k.ID ++ " to SQS: " ++ e)
             err := some e
             attempts := st.attempts ++ [messageParams sv.SQS_QUEUE_URL k body]
             events := st.events ++
               [Event.log ("Failed to send work item " ++ toString k.ID ++ " to SQS: " ++ e)]
               ++ deferred } := by
  rw [HandlerOn_passed sv _ hp, publishLoop_append sv _ pre (k :: rest) loopStart st hpre,
    publishLoop_send_fails sv _ k rest st body e hm hk]
  rfl

/-- The loop when every item is marshalled and every publish is accepted: `bodies` are the
marshalled items and `ids` the ids the queue returns, the call for an item being made after the
calls for the items before it. -/
theorem publishLoop_all_accepted (sv : Services) (url : String) (items : List WorkItem) :
    ∀ (bodies ids : List String) (st : LoopState),
      List.Forall₂ (fun item body => sv.marshal item = Except.ok body) items bodies →
      ids.length = items.length →
      (∀ i call, (List.zipWith (messageParams url) items bodies)[i]? = some call →
        ∃ id, ids[i]? = some id ∧
          sv.sendMessage
            (st.attempts ++ (List.zipWith (messageParams url) items bodies).take i) call =
              Except.ok id) →
      ∃ st1, publishLoop sv url items st = (st1, LoopExit.completed) ∧
        st1.messagesSent = st.messagesSent ++
          List.zipWith (fun (item : WorkItem) id =>
            ({ WorkId := item.ID, MessageId := id, Typ := item.Typ } : MessageSent)) items ids ∧
        st1.attempts = st.attempts ++ List.zipWith (messageParams url) items bodies := by
  induction items with
  | nil =>
    intro bodies ids st _ _ _
    exact ⟨st, rfl, by simp, by simp⟩
  | cons item items ih =>
    intro bodies ids st hm hlen hsend
    cases hm with
    | cons hb hrest =>
      rename_i body bodies
      cases ids with
      | nil => simp at hlen
      | cons id0 ids =>
        obtain ⟨id, hid, hs0⟩ := hsend 0 (messageParams url item body) (by simp)
        simp only [List.getElem?_cons_zero, Option.some.injEq] at hid
        subst hid
        simp only [List.take_zero, List.append_nil] at hs0
        have hlen' : ids.length = items.length := by simpa using hlen
        obtain ⟨st1, hrun, hsent, hatt⟩ := ih bodies ids
          { messagesSent := st.messagesSent ++
              [{ WorkId := item.ID, MessageId := id0, Typ := item.Typ }]
            attempts := st.attempts ++ [messageParams url item body]
            events := st.events ++
              [Event.log "Sent work item %d (%s) to SQS: %s",
               Event.writePoint
                 { measurement := "sqs_messages"
                   tags := [("work_type", item.Typ), ("status", "sent")]
                   fields := [("work_id", FieldVal.int item.ID),
                              ("message_id", FieldVal.str id0)] }] }
          hrest hlen'
          (by
            intro i call hcall
            obtain ⟨id, h1, h2⟩ := hsend (i + 1) call (by simpa using hcall)
            refine ⟨id, by simpa using h1, ?_⟩
            simpa [List.take_succ_cons, List.append_assoc] using h2)
        refine ⟨st1, ?_, ?_, ?_⟩
        · simp only [publishLoop, hb, hs0]
          exact hrun
        · simpa [List.append_assoc] using hsent
        · simpa [List.append_assoc] using hatt

/-- The outcomes built from items and queue ids of equal number: their ids, types and message
ids. -/
theorem sent_projections (items : List WorkItem) :
    ∀ ids : List String, ids.length = items.length →
      (List.zipWith (fun (item : WorkItem) id =>
        ({ WorkId := item.ID, MessageId := id, Typ := item.Typ } : MessageSent))
        items ids).map MessageSent.WorkId = items.map WorkItem.ID ∧
      (List.zipWith (fun (item : WorkItem) id =>
        ({ WorkId := item.ID, MessageId := id, Typ := item.Typ } : MessageSent))
        items ids).map MessageSent.Typ = items.map WorkItem.Typ ∧
      (List.zipWith (fun (item : WorkItem) id =>
        ({ WorkId := item.ID, MessageId := id, Typ := item.Typ } : MessageSent))
        items ids).map MessageSent.MessageId = ids := by
  induction items with
  | nil =>
    intro ids h
    cases ids with
    | nil => exact ⟨rfl, rfl, rfl⟩
    | cons a l => simp at h
  | cons item items ih =>
    intro ids h
    cases ids with
    | nil => simp at h
    | cons a l =>
      obtain ⟨h1, h2, h3⟩ := ih l (by simpa using h)
      simp only [List.zipWith_cons_cons, List.map_cons, h1, h2, h3, and_self]

/-- C11, as the code has it: when the first publish failure occurs at item `k`, the producer
returns the failure alone. The response is the error response (status 500, `success = false`,
the error message naming `k`) and its `processedData` is null, so it carries none of the
outcomes of the items published before `k`; the loop had recorded one outcome for each of
those items, in order, and they are dropped at the early return. -/
theorem producer_failure_response (sv : Services) (pre post : List WorkItem) (k : WorkItem)
    (st : LoopState) (body e : String)
    (hp : preflightPassed sv = true)
    (hpre : publishLoop sv sv.SQS_QUEUE_URL pre loopStart = (st, LoopExit.completed))
    (hm : sv.marshal k = Except.ok body)
    (hk : sv.sendMessage st.attempts (messageParams sv.SQS_QUEUE_URL k body) =
      Except.error e) :
    ∃ inv, HandlerOn sv (pre ++ k :: post) = some inv ∧
      inv.response = createErrorResponse sv
        ("Failed to send work item " ++ toString k.ID ++ " to SQS: " ++ e) ∧
      inv.response.StatusCode = 500 ∧
      inv.response.CronJob.Success = false ∧
      inv.response.CronJob.ProcessedData = none ∧
      inv.err = some e ∧
      List.Forall₂ (fun (m : MessageSent) (item : WorkItem) =>
        m.WorkId = item.ID ∧ m.Typ = item.Typ) st.messagesSent pre := by
  obtain ⟨calls, sent, _, hs, _, hsent⟩ :=
    publishLoop_completed sv sv.SQS_QUEUE_URL pre loopStart st hpre
  have hs' : st.messagesSent = sent := by simpa [loopStart] using hs
  refine ⟨_, HandlerOn_first_failure sv pre post k st body e hp hpre hm hk, rfl, rfl, rfl,
    rfl, rfl, ?_⟩
  rw [hs']
  exact hsent

theorem producer_failure_response_witness :
    ∃ inv, Handler Sample.producerServices = some inv ∧
      inv.response = createErrorResponse Sample.producerServices
        "Failed to send work item 3 to SQS: QueueDoesNotExist" ∧
      inv.response.CronJob.ProcessedData = none ∧
      (publishLoop Sample.producerServices Sample.producerServices.SQS_QUEUE_URL
        (workItems.take 2) loopStart).1.messagesSent =
        [⟨1, "sqs-0", "data_processing"⟩, ⟨2, "sqs-1", "email_notification"⟩] := by
  obtain ⟨inv, h1, h2, _, _, h5, _⟩ :=
    producer_failure_response Sample.producerServices (workItems.take 2) (workItems.drop 3)
      ⟨3, "data_cleanup", [("table", JVal.str "old_logs"), ("days", JVal.num 30)]⟩
      (publishLoop Sample.producerServices Sample.producerServices.SQS_QUEUE_URL
        (workItems.take 2) loopStart).1
      "item-3" "QueueDoesNotExist" (by decide) rfl rfl rfl
  refine ⟨inv, h1, ?_, h5, by decide⟩
  rw [h2]
  simp only [createErrorResponse]
  decide

/-- C11 as stated fails: with a queue that accepts the first two built-in items and refuses the
third, the two outcomes recorded for items 1 and 2 are not in the returned response, which
has no `processedData` at all. -/
theorem producer_failure_response_counterexample :
    (publishLoop Sample.producerServices Sample.producerServices.SQS_QUEUE_URL
      (workItems.take 2) loopStart).1.messagesSent.map MessageSent.WorkId = [1, 2] ∧
    ¬ ∃ inv pd, Handler Sample.producerServices = some inv ∧
      inv.response.CronJob.ProcessedData = some pd ∧
      pd.MessagesSent.map MessageSent.WorkId = [1, 2] := by
  refine ⟨by decide, ?_⟩
  rintro ⟨inv, pd, hinv, hpd, _⟩
  have hrun := HandlerOn_first_failure Sample.producerServices (workItems.take 2)
    (workItems.drop 3)
    ⟨3, "data_cleanup", [("table", JVal.str "old_logs"), ("days", JVal.num 30)]⟩
    (publishLoop Sample.producerServices Sample.producerServices.SQS_QUEUE_URL
      (workItems.take 2) loopStart).1
    "item-3" "QueueDoesNotExist" (by decide) rfl rfl rfl
  have hH : Handler Sample.producerServices =
      HandlerOn Sample.producerServices (workItems.take 2 ++
        ⟨3, "data_cleanup", [("table", JVal.str "old_logs"), ("days", JVal.num 30)]⟩ ::
          workItems.drop 3) := rfl
  rw [hH, hrun] at hinv
  cases hinv
  simp [createErrorResponse] at hpd

/-- C12: when pre-flight succeeds with the queue URL set, every item is marshalled (to
`bodies`) and every publish is accepted (the call for an item, made after the calls for the
items before it, returns the id in `ids`), the producer returns status 200 with
`success = true`, no error, and `messagesSent` holding one outcome per item in input order,
with the item's id and type and the message id the queue returned for it; the message ids are
distinct when the queue's ids are. For the five built-in items this is five outcomes, ids 1 to
5, one of each built-in type. -/
theorem producer_all_published (sv : Services) (items : List WorkItem)
    (bodies ids : List String)
    (hp : preflightPassed sv = true)
    (hm : List.Forall₂ (fun item body => sv.marshal item = Except.ok body) items bodies)
    (hlen : ids.length = items.length)
    (hsend : ∀ i call,
      (List.zipWith (messageParams sv.SQS_QUEUE_URL) items bodies)[i]? = some call →
      ∃ id, ids[i]? = some id ∧
        sv.sendMessage ((List.zipWith (messageParams sv.SQS_QUEUE_URL) items bodies).take i)
          call = Except.ok id) :
    ∃ inv pd, HandlerOn sv items = some inv ∧
      inv.err = none ∧
      inv.response.StatusCode = 200 ∧
      inv.response.CronJob.Success = true ∧
      inv.response.CronJob.Error = none ∧
      inv.response.CronJob.ProcessedData = some pd ∧
      pd.MessagesSent = List.zipWith (fun (item : WorkItem) id =>
        ({ WorkId := item.ID, MessageId := id, Typ := item.Typ } : MessageSent)) items ids ∧
      pd.MessagesSent.length = items.length ∧
      pd.MessagesSent.map MessageSent.WorkId = items.map WorkItem.ID ∧
      pd.MessagesSent.map MessageSent.Typ = items.map WorkItem.Typ ∧
      pd.MessagesSent.map MessageSent.MessageId = ids ∧
      (ids.Nodup → (pd.MessagesSent.map MessageSent.MessageId).Nodup) ∧
      (items = workItems →
        Handler sv = some inv ∧
        pd.MessagesSent.length = 5 ∧
        pd.MessagesSent.map MessageSent.WorkId = [1, 2, 3, 4, 5] ∧
        pd.MessagesSent.map MessageSent.Typ =
          ["data_processing", "email_notification", "data_cleanup", "report_generation",
           "backup_task"]) := by
  obtain ⟨st1, hrun, hsent, _⟩ :=
    publishLoop_all_accepted sv sv.SQS_QUEUE_URL items bodies ids loopStart hm hlen
      (by simpa [loopStart] using hsend)
  have hsent' : st1.messagesSent = List.zipWith (fun (item : WorkItem) id =>
      ({ WorkId := item.ID, MessageId := id, Typ := item.Typ } : MessageSent)) items ids := by
    simpa [loopStart] using hsent
  obtain ⟨p1, p2, p3⟩ := sent_projections items ids hlen
  have hH : HandlerOn sv items = some (conclude sv (st1, LoopExit.completed)) := by
    rw [HandlerOn_passed sv items hp, hrun]
  have hl : (List.zipWith (fun (item : WorkItem) id =>
      ({ WorkId := item.ID, MessageId := id, Typ := item.Typ } : MessageSent))
      items ids).length = items.length := by
    simp [hlen]
  refine ⟨_, ⟨st1.messagesSent⟩, hH, rfl, rfl, rfl, rfl, rfl, hsent', ?_, ?_, ?_, ?_, ?_, ?_⟩
  · simp only [hsent', hl]
  · simp only [hsent', p1]
  · simp only [hsent', p2]
  · simp only [hsent', p3]
  · intro hnd
    simp only [hsent', p3]
    exact hnd
  · intro hitems
    subst hitems
    refine ⟨hH, ?_, ?_, ?_⟩
    · simp only [hsent', hl]
      rfl
    · simp only [hsent', p1]
      rfl
    · simp only [hsent', p2]
      rfl

theorem producer_all_published_witness :
    ∃ inv pd, Handler Sample.acceptingServices = some inv ∧
      inv.err = none ∧
      inv.response.StatusCode = 200 ∧
      inv.response.CronJob.Success = true ∧
      inv.response.CronJob.Error = none ∧
      inv.response.CronJob.ProcessedData = some pd ∧
      pd.MessagesSent =
        [⟨1, "sqs-0", "data_processing"⟩, ⟨2, "sqs-1", "email_notification"⟩,
         ⟨3, "sqs-2", "data_cleanup"⟩, ⟨4, "sqs-3", "report_generation"⟩,
         ⟨5, "sqs-4", "backup_task"⟩] ∧
      (pd.MessagesSent.map MessageSent.MessageId).Nodup := by
  obtain ⟨inv, pd, _, h2, h3, h4, h5, h6, h7, _, _, _, _, h12, h13⟩ :=
    producer_all_published Sample.acceptingServices workItems
      ["item-1", "item-2", "item-3", "item-4", "item-5"]
      ["sqs-0", "sqs-1", "sqs-2", "sqs-3", "sqs-4"]
      (by decide)
      (List.Forall₂.cons rfl (List.Forall₂.cons rfl (List.Forall₂.cons rfl
        (List.Forall₂.cons rfl (List.Forall₂.cons rfl List.Forall₂.nil)))))
      rfl
      (by
        intro i call hcall
        match i, hcall with
        | 0, _ => exact ⟨_, rfl, rfl⟩
        | 1, _ => exact ⟨_, rfl, rfl⟩
        | 2, _ => exact ⟨_, rfl, rfl⟩
        | 3, _ => exact ⟨_, rfl, rfl⟩
        | 4, _ => exact ⟨_, rfl, rfl⟩
        | n + 5, h => exact absurd h (by simp [workItems]))
  exact ⟨inv, pd, (h13 rfl).1, h2, h3, h4, h5, h6, h7, h12 (by decide)⟩

end Producer

end CronService
